import Mathlib

/-!
# Search-and-recommend client (`static/script.js`)

A shallow embedding of the browser script: the page elements the script touches
become fields of one `State` record, every function of the script becomes a
function on that record, timers (`setTimeout` / `clearTimeout`) become an explicit
list of pending timers with due times, and the asynchronous requests are split at
their `await` points into the part that runs before the request and the part that
runs when the request settles.

Strings are Lean strings; where the script observes UTF-16 (`length`) or the DOM
(`textContent`, `innerHTML`) the corresponding platform behaviour is modelled
explicitly (`jsLength`, `jsTrim`, `escapeHtml`).  Numbers that the script computes
with (`similarity * 100`) are IEEE-754 doubles, represented exactly as dyadic
rationals.
-/

namespace Recommender

/-! ## JavaScript strings -/

/-- Number of UTF-16 code units of one code point. -/
def utf16Units (c : Char) : Nat := if c.toNat < 65536 then 1 else 2

/-- The `length` property of a JavaScript string: its number of UTF-16 code units. -/
def jsLength (s : String) : Nat := (s.data.map utf16Units).sum

/-- White space and line terminators removed by `String.prototype.trim`
(ECMAScript WhiteSpace and LineTerminator productions). -/
def isJsWhiteSpace (c : Char) : Bool :=
  let n := c.toNat
  n == 9 || n == 10 || n == 11 || n == 12 || n == 13 || n == 32 || n == 160 ||
  n == 5760 || (8192 ≤ n && n ≤ 8202) || n == 8232 || n == 8233 || n == 8239 ||
  n == 8287 || n == 12288 || n == 65279

/-- The method `String.prototype.trim`. -/
def jsTrim (s : String) : String :=
  ⟨((s.data.dropWhile isJsWhiteSpace).reverse.dropWhile isJsWhiteSpace).reverse⟩

/-- Template-literal interpolation of a property that may be absent:
an absent property reads as `undefined`, which prints as the word itself. -/
def interp : Option String → String
  | some s => s
  | none => "undefined"

/-- The expression `v || dflt` for a property holding a string or nothing:
the empty string and `undefined` are both falsy. -/
def jsOr (v : Option String) (dflt : String) : String :=
  match v with
  | some s => if s = "" then dflt else s
  | none => dflt

/-- The expression `v && v !== 'Unknown' ? v : dflt` of `createRecommendationCard`. -/
def knownOr (v : Option String) (dflt : String) : String :=
  match v with
  | some s => if s ≠ "" ∧ s ≠ "Unknown" then s else dflt
  | none => dflt

/-! ## `escapeHtml` -/

/-- Serialisation of one character of a text node by the `innerHTML` getter
(HTML fragment serialisation, "escaping a string" outside attribute mode). -/
def escapeChar (c : Char) : List Char :=
  if c = '&' then "&amp;".data
  else if c = '<' then "&lt;".data
  else if c = '>' then "&gt;".data
  else if c = Char.ofNat 160 then "&nbsp;".data
  else [c]

/-- The function `escapeHtml(text)`: a fresh `div` gets `text` as its `textContent`
(one text node) and its `innerHTML` is read back. -/
def escapeHtml (text : String) : String := ⟨text.data.flatMap escapeChar⟩

/-- The call `escapeHtml(v)` on a property that may be absent: the `textContent`
setter treats `undefined` and `null` as the empty string. -/
def escapeHtmlValue (v : Option String) : String := escapeHtml (v.getD "")

/-- Number of occurrences of a character in a string. -/
def countChar (c : Char) (s : String) : Nat := s.data.count c

/-! ## IEEE-754 doubles in `[0, 2^53)` with a non-positive exponent -/

/-- A non-negative dyadic rational `num / 2 ^ exp`. -/
structure Double where
  num : Nat
  exp : Nat
deriving DecidableEq

/-- The dyadic rationals that are doubles: a significand below `2 ^ 53` and an
exponent not below `-1074`.  Every double in `[0, 1]` has this form. -/
def Double.IsDouble (x : Double) : Prop := x.num < 2 ^ 53 ∧ x.exp ≤ 1074

instance (x : Double) : Decidable x.IsDouble := by
  unfold Double.IsDouble; exact inferInstance

/-- The value is at most one. -/
def Double.LeOne (x : Double) : Prop := x.num ≤ 2 ^ x.exp

instance (x : Double) : Decidable x.LeOne := by
  unfold Double.LeOne; exact inferInstance

/-- Bit length with explicit fuel. -/
def bitLengthAux : Nat → Nat → Nat
  | 0, _ => 0
  | fuel + 1, n => if n = 0 then 0 else bitLengthAux fuel (n / 2) + 1

/-- Number of binary digits of `n`. -/
def bitLength (n : Nat) : Nat := bitLengthAux n n

/-- Round `n` to a multiple of `2 ^ sh`, to nearest, ties to the even multiple. -/
def roundShift (n sh : Nat) : Nat :=
  let q := n / 2 ^ sh
  let r := n % 2 ^ sh
  if 2 * r > 2 ^ sh ∨ (2 * r = 2 ^ sh ∧ q % 2 = 1) then (q + 1) * 2 ^ sh else q * 2 ^ sh

/-- Round the exact value `n / 2 ^ k` to the nearest double (ties to even):
the numerator keeps its 53 leading bits. -/
def roundToDouble (n k : Nat) : Double :=
  if bitLength n ≤ 53 then ⟨n, k⟩ else ⟨roundShift n (bitLength n - 53), k⟩

/-- The expression `x * 100` in double arithmetic. -/
def Double.mul100 (x : Double) : Double := roundToDouble (x.num * 100) x.exp

/-- The function `Math.round` on a non-negative double: the nearest integer,
a tie going to the larger one. -/
def mathRound (x : Double) : Nat := (2 * x.num + 2 ^ x.exp) / 2 ^ (x.exp + 1)

/-- What the specification calls the percentage of `s`: the exact product
`100 * s` rounded to the nearest whole number, ties up. -/
def nearestPercentExact (s : Double) : Nat := (200 * s.num + 2 ^ s.exp) / 2 ^ (s.exp + 1)

/-! ## Data received from the server -/

/-- One element of a `/api/search` response. -/
structure SearchResultItem where
  title : String
  type : String
  release_year : Int
deriving DecidableEq

/-- The `source` object of a `/api/recommend` response. -/
structure SourceTitle where
  title : String
  type : String
  release_year : Int
  rating : Option String
  duration : Option String
  description : Option String
  listed_in : Option String
  cast : Option String
  director : Option String
deriving DecidableEq

/-- One element of `recommendations` in a `/api/recommend` response. -/
structure Recommendation where
  title : String
  type : String
  release_year : Int
  rating : Option String
  duration : Option String
  description : Option String
  listed_in : Option String
  cast : Option String
  director : Option String
  similarity : Double
deriving DecidableEq

/-- A parsed `/api/recommend` success body; a missing property is `none`. -/
structure RecommendData where
  source : Option SourceTitle
  recommendations : Option (List Recommendation)
deriving DecidableEq

/-- Body of a non-2xx response as `response.json()` delivers it. -/
inductive ErrorBody
  /-- The call `response.json()` rejects with this message. -/
  | unparsable (message : String)
  /-- A JSON object; `error` is its `error` property when it has one. -/
  | object (error : Option String)
deriving DecidableEq

/-- Body of a 2xx response as `response.json()` delivers it. -/
inductive OkBody
  /-- The call `response.json()` rejects with this message. -/
  | unparsable (message : String)
  /-- A JSON object. -/
  | object (data : RecommendData)
deriving DecidableEq

/-- How the `fetch` of `getRecommendations` settles. -/
inductive RecommendOutcome
  /-- The promise of `fetch` rejects (network failure) with this message. -/
  | networkFailure (message : String)
  /-- A response with `response.ok` false. -/
  | notOk (body : ErrorBody)
  /-- A response with `response.ok` true. -/
  | ok (body : OkBody)
deriving DecidableEq

/-! ## Page state -/

/-- What a pending timer runs when it fires. -/
inductive TimerAction
  /-- Callback of `handleSearch`: `searchTitles(query)`. -/
  | searchTitles (query : String)
  /-- Callback of `showError`: hide the banner. -/
  | hideError
  /-- Callback of `createRecommendationCard`: the entrance animation of a card. -/
  | animateCard (index : Nat)
deriving DecidableEq

/-- A pending timer. -/
structure Timer where
  id : Nat
  due : Nat
  action : TimerAction
deriving DecidableEq

/-- A `div.suggestion-item` of the dropdown; `clickTitle` is the title its click
listener passes to `selectTitle`. -/
structure SuggestionItem where
  className : String
  innerHTML : String
  clickTitle : String
deriving DecidableEq

/-- A `div.recommendation-card` of the grid. -/
structure Card where
  className : String
  innerHTML : String
deriving DecidableEq

/-- The JSON body posted to `/api/recommend`; `n` is the value of the count
control before `parseInt`. -/
structure RecommendRequest where
  title : String
  method : String
  n : String
deriving DecidableEq

/-- The two script variables, the parts of the page the script reads or writes,
the clock and the pending timers, and the requests issued so far. -/
structure State where
  /-- Current time in milliseconds. -/
  now : Nat
  /-- Handle the next `setTimeout` returns. -/
  nextTimerId : Nat
  /-- Pending timers. -/
  timers : List Timer
  /-- Script variable `selectedTitle`. -/
  selectedTitle : String
  /-- Script variable `searchTimeout` (`none` is `null`). -/
  searchTimeout : Option Nat
  /-- Property `searchInput.value`. -/
  searchInputValue : String
  /-- Children of `suggestionsDiv`. -/
  suggestions : List SuggestionItem
  /-- Whether `suggestionsDiv` has class `active`. -/
  suggestionsActive : Bool
  /-- Property `recommendBtn.disabled`. -/
  recommendBtnDisabled : Bool
  /-- Property `methodSelect.value`. -/
  methodValue : String
  /-- Property `countSelect.value`. -/
  countValue : String
  /-- Whether `loading` has class `active`. -/
  loadingActive : Bool
  /-- Property `errorMessage.textContent`. -/
  errorText : String
  /-- Whether `errorMessage` has class `active`. -/
  errorActive : Bool
  /-- Whether `resultsSection` has class `active`. -/
  resultsActive : Bool
  /-- Markup assigned to `sourceTitleDiv.innerHTML`. -/
  sourceTitleHtml : String
  /-- Property `recCount.textContent`. -/
  recCountText : String
  /-- Children of `recommendationsGrid`. -/
  grid : List Card
  /-- Queries of the `/api/search` requests issued, oldest first. -/
  searchRequests : List String
  /-- Bodies of the `/api/recommend` requests issued, oldest first. -/
  recommendRequests : List RecommendRequest
deriving DecidableEq

/-- Modelled from the spec: the page markup is not among the sources, so the
state in which it delivers the recommend button is taken from the specification,
which has the recommend action enabled only once a title is selected: the button
starts disabled. -/
def initialRecommendBtnDisabled : Bool := true

/-- The page as loaded: `selectedTitle = ''`, `searchTimeout = null`, nothing
rendered, no timer pending, the clock at zero; the method and count controls hold
the given values. -/
def initialState (method count : String) : State :=
  { now := 0, nextTimerId := 1, timers := [], selectedTitle := "", searchTimeout := none,
    searchInputValue := "", suggestions := [], suggestionsActive := false,
    recommendBtnDisabled := initialRecommendBtnDisabled, methodValue := method,
    countValue := count, loadingActive := false, errorText := "", errorActive := false,
    resultsActive := false, sourceTitleHtml := "", recCountText := "", grid := [],
    searchRequests := [], recommendRequests := [] }

/-! ## Timers -/

/-- The call `setTimeout(callback, delay)`: a fresh non-zero handle is returned and
the timer becomes pending. -/
def setTimeout (st : State) (action : TimerAction) (delay : Nat) : State × Nat :=
  ({ st with
      timers := st.timers ++ [⟨st.nextTimerId, st.now + delay, action⟩]
      nextTimerId := st.nextTimerId + 1 },
   st.nextTimerId)

/-- The call `clearTimeout(id)`: the timer with that handle, if still pending, is
removed. -/
def clearTimeout (st : State) (id : Nat) : State :=
  { st with timers := st.timers.filter (fun t => t.id != id) }

/-- Whether a timer callback is the debounced search of `handleSearch`. -/
def TimerAction.isSearch : TimerAction → Bool
  | .searchTitles _ => true
  | _ => false

/-- The pending debounce timers. -/
def pendingSearchTimers (st : State) : List Timer :=
  st.timers.filter (fun t => t.action.isSearch)

/-! ## Search -/

/-- Modelled from the spec: the page markup is not among the sources; the
specification has the search box as a text input, and the `value` setter of a
text (or search) input removes every line feed and carriage return from the
string assigned to it. -/
def sanitizeValue (value : String) : String :=
  ⟨value.data.filter (fun c => c != Char.ofNat 10 && c != Char.ofNat 13)⟩

/-- The function `selectTitle(title)`; the assignment to `searchInput.value` goes
through the value setter of the input. -/
def selectTitle (st : State) (title : String) : State :=
  { st with
      selectedTitle := title
      searchInputValue := sanitizeValue title
      suggestionsActive := false
      recommendBtnDisabled := false }

/-- The element `displaySuggestions` builds for one search result. -/
def suggestionItem (title : SearchResultItem) : SuggestionItem :=
  { className := "suggestion-item"
    innerHTML :=
      "\n            <div class=\"suggestion-title\">" ++
      escapeHtml title.title ++
      "</div>\n            <div class=\"suggestion-meta\">" ++
      title.type ++
      " • " ++
      toString title.release_year ++
      "</div>\n        "
    clickTitle := title.title }

/-- The function `displaySuggestions(titles)`. -/
def displaySuggestions (st : State) (titles : List SearchResultItem) : State :=
  let st := { st with suggestions := [] }
  if titles.length = 0 then
    { st with suggestionsActive := false }
  else
    { st with
        suggestions := st.suggestions ++ titles.map suggestionItem
        suggestionsActive := true }

/-- The function `searchTitles(query)` up to its `await fetch`: the request for
`query` is issued. -/
def searchTitles (st : State) (query : String) : State :=
  { st with searchRequests := st.searchRequests ++ [query] }

/-- The rest of `searchTitles` once its request has settled: a parsed response is
passed to `displaySuggestions`, a failure (`none`) is only logged. -/
def searchTitlesSettled (st : State) (result : Option (List SearchResultItem)) : State :=
  match result with
  | some titles => displaySuggestions st titles
  | none => st

/-- The function `handleSearch(e)`; `e.target.value` is `searchInput.value`. -/
def handleSearch (st : State) : State :=
  let query := jsTrim st.searchInputValue
  let st :=
    match st.searchTimeout with
    | some id => if id ≠ 0 then clearTimeout st id else st
    | none => st
  if jsLength query < 2 then
    { st with
        suggestions := []
        suggestionsActive := false
        recommendBtnDisabled := true }
  else
    let r := setTimeout st (.searchTitles query) 300
    { r.1 with searchTimeout := some r.2 }

/-! ## Rendering -/

/-- The function `showError(message)`. -/
def showError (st : State) (message : String) : State :=
  let st := { st with errorText := message, errorActive := true }
  (setTimeout st .hideError 5000).1

/-- The function `displaySourceTitle(source)`. -/
def displaySourceTitle (st : State) (source : SourceTitle) : State :=
  { st with
      sourceTitleHtml :=
        "\n        <div class=\"source-label\">You selected:</div>\n        <div class=\"source-name\">" ++
        escapeHtml source.title ++
        "</div>\n        <div class=\"source-details\">\n            <span class=\"source-tag\">" ++
        source.type ++
        "</span>\n            <span class=\"source-tag\">" ++
        toString source.release_year ++
        "</span>\n            <span class=\"source-tag\">" ++
        interp source.rating ++
        "</span>\n            <span class=\"source-tag\">" ++
        interp source.duration ++
        "</span>\n        </div>\n        <div class=\"source-description\">" ++
        escapeHtmlValue source.description ++
        "</div>\n    " }

/-- The value `similarityPercent` of `createRecommendationCard`:
`Math.round(rec.similarity * 100)`. -/
def similarityPercent (rec : Recommendation) : Nat := mathRound rec.similarity.mul100

/-- The function `createRecommendationCard(rec, index)`: the card, and the state
after the entrance-animation timer has been set. -/
def createRecommendationCard (st : State) (rec : Recommendation) (index : Nat) :
    State × Card :=
  let cast := knownOr rec.cast "Cast information not available"
  let director := knownOr rec.director "Director information not available"
  let genres := jsOr rec.listed_in "N/A"
  let card : Card :=
    { className := "recommendation-card"
      innerHTML :=
        "\n        <div class=\"card-header\">\n            <div class=\"card-title\">" ++
        escapeHtml rec.title ++
        "</div>\n            <div class=\"card-meta\">\n                <span class=\"meta-badge\">" ++
        rec.type ++
        "</span>\n                <span class=\"meta-badge\">" ++
        toString rec.release_year ++
        "</span>\n                <span class=\"meta-badge\">" ++
        interp rec.rating ++
        "</span>\n                <span class=\"meta-badge\">" ++
        interp rec.duration ++
        "</span>\n            </div>\n        </div>\n        <div class=\"card-body\">\n            <div class=\"card-genres\">" ++
        escapeHtml genres ++
        "</div>\n            <div class=\"card-description\">" ++
        escapeHtmlValue rec.description ++
        "</div>\n            <div class=\"card-cast\"><strong>Cast:</strong> " ++
        escapeHtml cast ++
        "</div>\n            <div class=\"card-cast\"><strong>Director:</strong> " ++
        escapeHtml director ++
        "</div>\n        </div>\n        <div class=\"card-footer\">\n            <div class=\"similarity-score\">\n                <span class=\"score-label\">Match:</span>\n                <span class=\"score-value\">" ++
        toString (similarityPercent rec) ++
        "%</span>\n            </div>\n            <div class=\"score-bar\">\n                <div class=\"score-fill\" style=\"width: " ++
        toString (similarityPercent rec) ++
        "%\"></div>\n            </div>\n        </div>\n    " }
  ((setTimeout st (.animateCard index) (index * 50)).1, card)

/-- The `forEach` loop of `displayRecommendations` from position `index` on. -/
def appendCards (st : State) : List Recommendation → Nat → State
  | [], _ => st
  | rec :: rest, index =>
    let r := createRecommendationCard st rec index
    appendCards { r.1 with grid := r.1.grid ++ [r.2] } rest (index + 1)

/-- The function `displayRecommendations(recommendations)`. -/
def displayRecommendations (st : State) (recommendations : List Recommendation) : State :=
  let st := { st with recCountText := toString recommendations.length ++ " recommendations found" }
  let st := { st with grid := [] }
  appendCards st recommendations 0

/-- Message of the `TypeError` thrown when a property of `undefined` is read
(the wording is the engine's). -/
def undefinedPropertyMessage (property : String) : String :=
  "Cannot read properties of undefined (reading \x27" ++ property ++ "\x27)"

/-- The function `displayResults(data)`: the state it leaves and, when it throws,
the message of the error.  A missing `source` makes `displaySourceTitle` throw at
`source.listed_in`; a missing `recommendations` makes `displayRecommendations`
throw at `recommendations.length`, after the source panel has been written. -/
def displayResults (st : State) (data : RecommendData) : State × Option String :=
  match data.source with
  | none => (st, some (undefinedPropertyMessage "listed_in"))
  | some source =>
    let st := displaySourceTitle st source
    match data.recommendations with
    | none => (st, some (undefinedPropertyMessage "length"))
    | some recommendations =>
      let st := displayRecommendations st recommendations
      ({ st with resultsActive := true }, none)

/-! ## Recommend -/

/-- The function `getRecommendations` from the guard passed up to its
`await fetch`: previous results and error are hidden, the loading indicator is
shown and the request is issued. -/
def getRecommendationsBegin (st : State) : State :=
  { st with
      resultsActive := false
      errorActive := false
      loadingActive := true
      recommendRequests :=
        st.recommendRequests ++ [⟨st.selectedTitle, st.methodValue, st.countValue⟩] }

/-- The `try` block of `getRecommendations` after the `fetch` has settled:
the state it leaves and, when it throws, the message of the error. -/
def getRecommendationsTry (st : State) (outcome : RecommendOutcome) : State × Option String :=
  match outcome with
  | .networkFailure message => (st, some message)
  | .notOk (.unparsable message) => (st, some message)
  | .notOk (.object error) => (st, some (jsOr error "Failed to get recommendations"))
  | .ok (.unparsable message) => (st, some message)
  | .ok (.object data) => displayResults st data

/-- The function `getRecommendations` after the `fetch` has settled: the `try`
block, `catch` (`showError(error.message)`) and `finally`. -/
def getRecommendationsSettled (st : State) (outcome : RecommendOutcome) : State :=
  let r := getRecommendationsTry st outcome
  let st :=
    match r.2 with
    | some message => showError r.1 message
    | none => r.1
  { st with loadingActive := false }

/-- The function `getRecommendations` run to completion with nothing else
happening while its request is pending. -/
def getRecommendations (st : State) (outcome : RecommendOutcome) : State :=
  if st.selectedTitle = "" then st
  else getRecommendationsSettled (getRecommendationsBegin st) outcome

/-! ## Events -/

/-- What can happen to the page. -/
inductive Event
  /-- An `input` event on the search box that leaves it with `value`. -/
  | input (value : String)
  /-- The search box receives focus. -/
  | focus
  /-- A click outside the search box and the dropdown. -/
  | clickOutside
  /-- A click on the `i`-th suggestion of the dropdown. -/
  | clickSuggestion (i : Nat)
  /-- A call `selectTitle(title)`. -/
  | selectTitle (title : String)
  /-- A click on the recommend button. -/
  | clickRecommend
  /-- The Enter key in the search box. -/
  | pressEnter
  /-- Time passes. -/
  | advance (ms : Nat)
  /-- The pending timer `id` fires; it can only when it is due. -/
  | fire (id : Nat)
  /-- A `/api/search` request settles (`none`: it failed). -/
  | searchSettled (result : Option (List SearchResultItem))
  /-- A `/api/recommend` request settles. -/
  | recommendSettled (outcome : RecommendOutcome)
deriving DecidableEq

/-- Run the callback of a timer. -/
def runTimer (st : State) : TimerAction → State
  | .searchTitles query => searchTitles st query
  | .hideError => { st with errorActive := false }
  | .animateCard _ => st

/-- The timer `id` fires if it is pending and due: it leaves the pending list
and its callback runs. -/
def fireTimer (st : State) (id : Nat) : State :=
  match st.timers.find? (fun t => t.id == id) with
  | some t =>
    if t.due ≤ st.now then
      runTimer { st with timers := st.timers.filter (fun u => u.id != id) } t.action
    else st
  | none => st

/-- The listeners of `setupEventListeners`, the timers and the request
continuations as one transition function. -/
def step (st : State) : Event → State
  | .input value => handleSearch { st with searchInputValue := value }
  | .focus =>
    if st.suggestions.length > 0 then { st with suggestionsActive := true } else st
  | .clickOutside => { st with suggestionsActive := false }
  | .clickSuggestion i =>
    match st.suggestions.get? i with
    | some item => selectTitle st item.clickTitle
    | none => st
  | .selectTitle title => selectTitle st title
  | .clickRecommend =>
    if st.recommendBtnDisabled then st
    else if st.selectedTitle = "" then st
    else getRecommendationsBegin st
  | .pressEnter =>
    if st.recommendBtnDisabled = false then
      if st.selectedTitle = "" then st else getRecommendationsBegin st
    else st
  | .advance ms => { st with now := st.now + ms }
  | .fire id => fireTimer st id
  | .searchSettled result => searchTitlesSettled st result
  | .recommendSettled outcome => getRecommendationsSettled st outcome

/-- Run a sequence of events. -/
def run (st : State) (events : List Event) : State := events.foldl step st

/-- The states the page can be in. -/
def Reachable (st : State) : Prop :=
  ∃ (method count : String) (events : List Event), st = run (initialState method count) events

/-- Whether an event is an `input` event. -/
def Event.isInput : Event → Bool
  | .input _ => true
  | _ => false

/-- Time that passes during an event. -/
def Event.elapsed : Event → Nat
  | .advance ms => ms
  | _ => 0

/-- Time that passes during a sequence of events. -/
def elapsed (events : List Event) : Nat := (events.map Event.elapsed).sum

/-- A burst of typing: a first `input` event, then for every further keystroke
the events that happen before it and the `input` event itself. -/
def burstEvents (first : String) (rest : List (List Event × String)) : List Event :=
  .input first :: rest.flatMap (fun g => g.1 ++ [.input g.2])

/-- The value of the last `input` event of a burst. -/
def lastValue (first : String) (rest : List (List Event × String)) : String :=
  match rest.getLast? with
  | some g => g.2
  | none => first

/-- Whether every title an event hands to the page is a non-empty string. -/
def Event.titlesNonEmpty : Event → Bool
  | .selectTitle title => title != ""
  | .searchSettled (some titles) => titles.all (fun t => t.title != "")
  | _ => true

/-- Whether an event is a 2xx `/api/recommend` response settling. -/
def Event.isOkSettled : Event → Bool
  | .recommendSettled (.ok _) => true
  | _ => false

/-! ## Auxiliary predicates -/

/-- A search result with its free-text property blanked out. -/
def SearchResultItem.blank (t : SearchResultItem) : SearchResultItem :=
  { t with title := "" }

/-- A source title with its free-text properties blanked out. -/
def SourceTitle.blank (s : SourceTitle) : SourceTitle :=
  { s with title := "", description := none, listed_in := none, cast := none, director := none }

/-- A recommendation with its free-text properties blanked out. -/
def Recommendation.blank (rec : Recommendation) : Recommendation :=
  { rec with title := "", description := none, listed_in := none, cast := none, director := none }

/-- What a piece of the script that neither handles input nor fires a debounce
timer leaves alone. -/
structure Frame (s t : State) : Prop where
  now : t.now = s.now
  selectedTitle : t.selectedTitle = s.selectedTitle
  recommendBtnDisabled : t.recommendBtnDisabled = s.recommendBtnDisabled
  suggestions : t.suggestions = s.suggestions
  searchTimeout : t.searchTimeout = s.searchTimeout
  searchRequests : t.searchRequests = s.searchRequests
  pending : pendingSearchTimers t = pendingSearchTimers s
  nextTimerId : s.nextTimerId ≤ t.nextTimerId

/-- Timer discipline of the debounce: handles are non-zero and the only debounce
timer that can be pending is the one `searchTimeout` names. -/
def Inv (st : State) : Prop :=
  0 < st.nextTimerId ∧
  (pendingSearchTimers st = [] ∨
    ∃ t, pendingSearchTimers st = [t] ∧ st.searchTimeout = some t.id ∧ t.id ≠ 0)

/-! ## Example data -/

/-- The source title of the escaping example. -/
def exampleSource : SourceTitle :=
  { title := "<script>x</script>", type := "Movie", release_year := 2020, rating := some "PG",
    duration := some "90 min", description := some "d", listed_in := none, cast := none,
    director := none }

/-- A recommendation whose similarity is the double nearest to 0.873. -/
def exampleRecommendation : Recommendation :=
  { title := "Interstellar", type := "Movie", release_year := 2014, rating := some "PG-13",
    duration := some "169 min", description := some "d", listed_in := some "Sci-Fi",
    cast := some "Unknown", director := none, similarity := ⟨3931642474694443, 52⟩ }

/-- Typing "In", waiting for the debounce, receiving one search result and
clicking it. -/
def exampleSelection : List Event :=
  [.input "In", .advance 300, .fire 1,
   .searchSettled (some [⟨"Inception", "Movie", 2010⟩]), .clickSuggestion 0]

/-- A second keystroke 100 ms after the first. -/
def exampleBurstRest : List (List Event × String) := [([.advance 100], "inc")]

/-- Waiting after the burst until the debounce timer fires. -/
def exampleBurstTail : List Event := [.advance 300, .fire 2]

/-- While a recommend request is pending: a second request is started 100 ms
later and fails on the network. -/
def exampleOverlap : List Event :=
  [.advance 100, .clickRecommend, .recommendSettled (.networkFailure "Failed to fetch")]

/-- Two failed recommend attempts: the first fails at time 0, the second is
started at 3000 ms and fails at 3100 ms. -/
def exampleTwoErrors : List Event :=
  [.selectTitle "Inception", .clickRecommend,
   .recommendSettled (.notOk (.object (some "Title not found"))),
   .advance 3000, .clickRecommend, .advance 100,
   .recommendSettled (.notOk (.object (some "Title not found")))]

/-! ## Lemmas: escaping -/

theorem escapeChar_clean (c x : Char) (h : x ∈ escapeChar c) : x ≠ '<' ∧ x ≠ '>' := by
  unfold escapeChar at h
  split_ifs at h with h1 h2 h3 h4
  · revert x; decide
  · revert x; decide
  · revert x; decide
  · revert x; decide
  · simp only [List.mem_singleton] at h
    subst h
    exact ⟨h2, h3⟩

theorem escapeHtml_clean (s : String) (x : Char) (h : x ∈ (escapeHtml s).data) :
    x ≠ '<' ∧ x ≠ '>' := by
  simp only [escapeHtml, List.mem_flatMap] at h
  obtain ⟨c, _, hx⟩ := h
  exact escapeChar_clean c x hx

theorem countChar_append (c : Char) (a b : String) :
    countChar c (a ++ b) = countChar c a + countChar c b := by
  simp [countChar, String.data_append, List.count_append]

theorem countChar_lt_escapeHtml (s : String) : countChar '<' (escapeHtml s) = 0 := by
  unfold countChar
  rw [List.count_eq_zero]
  intro h
  exact (escapeHtml_clean s _ h).1 rfl

theorem countChar_gt_escapeHtml (s : String) : countChar '>' (escapeHtml s) = 0 := by
  unfold countChar
  rw [List.count_eq_zero]
  intro h
  exact (escapeHtml_clean s _ h).2 rfl

theorem escapeHtml_append (a b : String) : escapeHtml (a ++ b) = escapeHtml a ++ escapeHtml b := by
  simp [escapeHtml, String.data_append, List.flatMap_append, String.ext_iff]


/-! ## Lemmas: the recommendation grid -/

theorem appendCards_grid (s0 : State) (recs : List Recommendation) :
    ∀ (st : State) (i : Nat),
      (appendCards st recs i).grid =
        st.grid ++ (recs.enumFrom i).map (fun p => (createRecommendationCard s0 p.2 p.1).2) ∧
      (appendCards st recs i).recCountText = st.recCountText := by
  induction recs with
  | nil => intro st i; simp [appendCards]
  | cons r rest ih =>
    intro st i
    have h := ih { (createRecommendationCard st r i).1 with
      grid := (createRecommendationCard st r i).1.grid ++ [(createRecommendationCard st r i).2] } (i + 1)
    simp only [appendCards, List.enumFrom_cons, List.map_cons]
    refine ⟨?_, ?_⟩
    · rw [h.1]
      simp [createRecommendationCard, setTimeout]
    · rw [h.2]
      rfl

/-! ## Lemmas: rounding -/

theorem bitLengthAux_zero (fuel : Nat) : bitLengthAux fuel 0 = 0 := by
  cases fuel <;> simp [bitLengthAux]

theorem bitLengthAux_lower (fuel : Nat) :
    ∀ n, n ≤ fuel → n ≠ 0 → 2 ^ (bitLengthAux fuel n - 1) ≤ n := by
  induction fuel with
  | zero => intro n h hn; omega
  | succ f ih =>
    intro n h hn
    simp only [bitLengthAux, hn, if_false, Nat.add_sub_cancel]
    by_cases h2 : n / 2 = 0
    · rw [h2, bitLengthAux_zero]; simp; omega
    · have := ih (n / 2) (by omega) h2
      have hpos : 0 < bitLengthAux f (n / 2) := by
        cases f with
        | zero => omega
        | succ g => simp [bitLengthAux, h2]
      have e : bitLengthAux f (n / 2) = (bitLengthAux f (n / 2) - 1) + 1 := by omega
      rw [e, pow_succ]
      omega

theorem bitLength_lower (n : Nat) (hn : n ≠ 0) : 2 ^ (bitLength n - 1) ≤ n :=
  bitLengthAux_lower n n le_rfl hn

theorem roundShift_le (n sh C : Nat) (hd : 2 ^ sh ∣ C) (h : n ≤ C) : roundShift n sh ≤ C := by
  obtain ⟨c, rfl⟩ := hd
  have hp : 0 < 2 ^ sh := Nat.two_pow_pos sh
  have hdm := Nat.div_add_mod n (2 ^ sh)
  have hr := Nat.mod_lt n hp
  set q := n / 2 ^ sh with hq
  set r := n % 2 ^ sh with hrr
  unfold roundShift
  simp only [← hq, ← hrr]
  split_ifs with hc
  · have hr0 : 0 < r := by
      rcases hc with hc | hc <;> omega
    have : q < c := by
      by_contra hcon
      push_neg at hcon
      have := Nat.mul_le_mul_left (2 ^ sh) hcon
      omega
    calc (q + 1) * 2 ^ sh ≤ c * 2 ^ sh := Nat.mul_le_mul_right _ this
      _ = 2 ^ sh * c := Nat.mul_comm _ _
  · have : q ≤ c := by
      by_contra hcon
      push_neg at hcon
      have := Nat.mul_le_mul_left (2 ^ sh) (Nat.succ_le_of_lt hcon)
      rw [Nat.succ_eq_add_one, Nat.mul_add] at this
      omega
    calc q * 2 ^ sh ≤ c * 2 ^ sh := Nat.mul_le_mul_right _ this
      _ = 2 ^ sh * c := Nat.mul_comm _ _

theorem le_roundShift (n sh C : Nat) (hd : 2 ^ sh ∣ C) (h : C ≤ n) : C ≤ roundShift n sh := by
  obtain ⟨c, rfl⟩ := hd
  have hp : 0 < 2 ^ sh := Nat.two_pow_pos sh
  have hdm := Nat.div_add_mod n (2 ^ sh)
  have hr := Nat.mod_lt n hp
  set q := n / 2 ^ sh with hq
  set r := n % 2 ^ sh with hrr
  have hcq : c ≤ q := by
    by_contra hcon
    push_neg at hcon
    have := Nat.mul_le_mul_left (2 ^ sh) (Nat.succ_le_of_lt hcon)
    rw [Nat.succ_eq_add_one, Nat.mul_add] at this
    omega
  have h1 : 2 ^ sh * c ≤ q * 2 ^ sh := by
    rw [Nat.mul_comm]; exact Nat.mul_le_mul_right _ hcq
  unfold roundShift
  simp only [← hq, ← hrr]
  split_ifs with hc
  · have : q * 2 ^ sh ≤ (q + 1) * 2 ^ sh := Nat.mul_le_mul_right _ (Nat.le_succ q)
    omega
  · exact h1

theorem bitLengthAux_upper (fuel : Nat) :
    ∀ n, n ≤ fuel → n < 2 ^ bitLengthAux fuel n := by
  induction fuel with
  | zero => intro n h; simp [bitLengthAux]; omega
  | succ f ih =>
    intro n h
    by_cases hn : n = 0
    · simp [bitLengthAux, hn]
    · simp only [bitLengthAux, hn, if_false]
      have := ih (n / 2) (by omega)
      rw [pow_succ]
      omega

theorem bitLength_upper (n : Nat) : n < 2 ^ bitLength n :=
  bitLengthAux_upper n n le_rfl

/-- The result of `roundShift` is a multiple of the unit and at most half a unit
away from the argument. -/
theorem roundShift_near (n sh : Nat) :
    2 ^ sh ∣ roundShift n sh ∧ 2 * (roundShift n sh - n) ≤ 2 ^ sh ∧
      2 * (n - roundShift n sh) ≤ 2 ^ sh := by
  have hp : 0 < 2 ^ sh := Nat.two_pow_pos sh
  have hdm := Nat.div_add_mod n (2 ^ sh)
  have hr := Nat.mod_lt n hp
  have hmul : 2 ^ sh * (n / 2 ^ sh) = n / 2 ^ sh * 2 ^ sh := Nat.mul_comm _ _
  have hmul1 : (n / 2 ^ sh + 1) * 2 ^ sh = n / 2 ^ sh * 2 ^ sh + 2 ^ sh := by ring
  unfold roundShift
  simp only
  split_ifs with hc
  · refine ⟨Dvd.intro_left _ rfl, ?_, ?_⟩
    · rcases hc with hc | hc <;> omega
    · omega
  · refine ⟨Dvd.intro_left _ rfl, ?_, ?_⟩
    · omega
    · push_neg at hc
      omega

/-- The double nearest to `n / 2 ^ k`: exact below `2 ^ 53`, and otherwise a
multiple of the unit in the last place of a 53-bit significand, at most half a
unit away. -/
theorem roundToDouble_near (n k : Nat) :
    (roundToDouble n k).exp = k ∧
    (n < 2 ^ 53 → (roundToDouble n k).num = n) ∧
    (2 ^ 53 ≤ n → 2 ^ (bitLength n - 1) ≤ n ∧ n < 2 ^ bitLength n ∧
      2 ^ (bitLength n - 53) ∣ (roundToDouble n k).num ∧
      2 * ((roundToDouble n k).num - n) ≤ 2 ^ (bitLength n - 53) ∧
      2 * (n - (roundToDouble n k).num) ≤ 2 ^ (bitLength n - 53)) := by
  have hup := bitLength_upper n
  refine ⟨?_, ?_, ?_⟩
  · unfold roundToDouble; split <;> rfl
  · intro h
    have hL : bitLength n ≤ 53 := by
      by_contra hcon
      push_neg at hcon
      have hn0 : n ≠ 0 := by
        intro h0; rw [h0] at hcon; revert hcon; decide
      have hlow := bitLength_lower n hn0
      have : 2 ^ 53 ≤ 2 ^ (bitLength n - 1) := Nat.pow_le_pow_right (by norm_num) (by omega)
      omega
    simp [roundToDouble, hL]
  · intro h
    have hL : ¬ bitLength n ≤ 53 := by
      intro hcon
      have : 2 ^ bitLength n ≤ 2 ^ 53 := Nat.pow_le_pow_right (by norm_num) hcon
      omega
    have hn0 : n ≠ 0 := by
      intro h0; rw [h0] at h; revert h; decide
    have hnear := roundShift_near n (bitLength n - 53)
    simp only [roundToDouble, hL, if_false]
    exact ⟨bitLength_lower n hn0, hup, hnear.1, hnear.2.1, hnear.2.2⟩

/-- Rounding a numerator bounded by `100 * 2 ^ k` keeps it between the two
half-integers around it. -/
theorem mathRound_roundToDouble (n k : Nat) (hn : n ≤ 100 * 2 ^ k) :
    let e := (2 * n + 2 ^ k) / 2 ^ (k + 1)
    let p := mathRound (roundToDouble n k)
    p ≤ 100 ∧ e ≤ p ∧ p ≤ e + 1 ∧ 2 * (roundToDouble n k).num ≤ (2 * e + 1) * 2 ^ k := by
  intro e p
  have hk1 : 2 ^ (k + 1) = 2 * 2 ^ k := by rw [pow_succ]; ring
  have hkpos : 0 < 2 ^ k := Nat.two_pow_pos k
  have hk1pos : 0 < 2 ^ (k + 1) := Nat.two_pow_pos _
  have he100 : e ≤ 100 := by
    apply Nat.le_of_lt_succ
    apply Nat.div_lt_of_lt_mul
    rw [hk1]; omega
  by_cases hL : bitLength n ≤ 53
  · have hp : p = e := by
      simp only [p, e, roundToDouble, hL, if_true, mathRound]
    rw [hp]
    refine ⟨he100, le_rfl, Nat.le_succ e, ?_⟩
    have he2 : 2 * n + 2 ^ k < (e + 1) * 2 ^ (k + 1) :=
      (Nat.div_lt_iff_lt_mul hk1pos).1 (Nat.lt_succ_self e)
    have h3 : (e + 1) * 2 ^ (k + 1) = 2 * (e * 2 ^ k) + 2 * 2 ^ k := by rw [hk1]; ring
    have h4 : (2 * e + 1) * 2 ^ k = 2 * (e * 2 ^ k) + 2 ^ k := by ring
    simp only [roundToDouble, hL, if_true]
    omega
  · have hn0 : n ≠ 0 := by
      intro h0
      apply hL
      rw [h0]
      decide
    have hlow := bitLength_lower n hn0
    have hlt : 2 ^ (bitLength n - 1) < 2 ^ (k + 7) := by
      have : 2 ^ (k + 7) = 128 * 2 ^ k := by rw [pow_add]; ring
      omega
    have hlt2 : bitLength n - 1 < k + 7 := (Nat.pow_lt_pow_iff_right (by norm_num)).1 hlt
    obtain ⟨j, hj⟩ : ∃ j, k = j + 1 := ⟨k - 1, by omega⟩
    subst hj
    have hsh : bitLength n - 53 ≤ j := by omega
    have hdvd : 2 ^ (bitLength n - 53) ∣ 2 ^ j := Nat.pow_dvd_pow 2 hsh
    have hj1 : 2 ^ (j + 1) = 2 * 2 ^ j := by rw [pow_succ]; ring
    have hj2 : 2 ^ (j + 1 + 1) = 4 * 2 ^ j := by rw [pow_succ, pow_succ]; ring
    have hjpos : 0 < 2 ^ j := Nat.two_pow_pos j
    have hp : p = (2 * roundShift n (bitLength n - 53) + 2 ^ (j + 1)) / 2 ^ (j + 1 + 1) := by
      simp only [p, roundToDouble, hL, if_false, mathRound]
    have he1 : e * 2 ^ (j + 1 + 1) ≤ 2 * n + 2 ^ (j + 1) := Nat.div_mul_le_self _ _
    have he2 : 2 * n + 2 ^ (j + 1) < (e + 1) * 2 ^ (j + 1 + 1) := by
      have := Nat.lt_succ_self e
      exact (Nat.div_lt_iff_lt_mul hk1pos).1 this
    rw [hj2, hj1] at he1 he2
    have hup : roundShift n (bitLength n - 53) ≤ (2 * e + 1) * 2 ^ j := by
      apply roundShift_le _ _ _ (Dvd.dvd.mul_left hdvd _)
      have : (2 * e + 1) * 2 ^ j = 2 * (e * 2 ^ j) + 2 ^ j := by ring
      have h3 : (e + 1) * (4 * 2 ^ j) = 4 * (e * 2 ^ j) + 4 * 2 ^ j := by ring
      have h4 : e * (4 * 2 ^ j) = 4 * (e * 2 ^ j) := by ring
      omega
    have h100 : roundShift n (bitLength n - 53) ≤ 200 * 2 ^ j := by
      apply roundShift_le _ _ _ (Dvd.dvd.mul_left hdvd _)
      omega
    have hlo : (2 * e - 1) * 2 ^ j ≤ roundShift n (bitLength n - 53) := by
      apply le_roundShift _ _ _ (Dvd.dvd.mul_left hdvd _)
      rcases Nat.eq_zero_or_pos e with h0 | hpos
      · rw [h0]; simp
      · obtain ⟨f, hf⟩ : ∃ f, e = f + 1 := ⟨e - 1, by omega⟩
        have h4 : e * (4 * 2 ^ j) = 4 * (f * 2 ^ j) + 4 * 2 ^ j := by rw [hf]; ring
        have : (2 * e - 1) * 2 ^ j = 2 * (f * 2 ^ j) + 2 ^ j := by
          rw [hf]
          have : 2 * (f + 1) - 1 = 2 * f + 1 := by omega
          rw [this]; ring
        omega
    have hnum : (roundToDouble n (j + 1)).num = roundShift n (bitLength n - 53) := by
      simp only [roundToDouble, hL, if_false]
    rw [hp, hj2, hj1, hnum]
    refine ⟨?_, ?_, ?_, ?_⟩
    · apply Nat.le_of_lt_succ
      apply Nat.div_lt_of_lt_mul
      omega
    · rw [Nat.le_div_iff_mul_le (by omega)]
      rcases Nat.eq_zero_or_pos e with h0 | hpos
      · rw [h0]; simp
      · obtain ⟨f, hf⟩ : ∃ f, e = f + 1 := ⟨e - 1, by omega⟩
        have h5 : (2 * e - 1) * 2 ^ j = 2 * (f * 2 ^ j) + 2 ^ j := by
          rw [hf]
          have : 2 * (f + 1) - 1 = 2 * f + 1 := by omega
          rw [this]; ring
        have h6 : e * (4 * 2 ^ j) = 4 * (f * 2 ^ j) + 4 * 2 ^ j := by rw [hf]; ring
        omega
    · apply Nat.le_of_lt_succ
      apply Nat.div_lt_of_lt_mul
      have h7 : (2 * e + 1) * 2 ^ j = 2 * (e * 2 ^ j) + 2 ^ j := by ring
      have h8 : 4 * 2 ^ j * (e + 1).succ = 4 * (e * 2 ^ j) + 8 * 2 ^ j := by
        rw [Nat.succ_eq_add_one]; ring
      omega
    · have h7 : (2 * e + 1) * (2 * 2 ^ j) = 2 * ((2 * e + 1) * 2 ^ j) := by ring
      omega

/-- The function `Math.round` after the double product: one above the exact
rounding precisely when the double product is the half-integer above it. -/
theorem mathRound_roundToDouble_exact (n k : Nat) (hn : n ≤ 100 * 2 ^ k) :
    mathRound (roundToDouble n k) =
      if 2 * (roundToDouble n k).num = (2 * ((2 * n + 2 ^ k) / 2 ^ (k + 1)) + 1) * 2 ^ k
      then (2 * n + 2 ^ k) / 2 ^ (k + 1) + 1 else (2 * n + 2 ^ k) / 2 ^ (k + 1) := by
  obtain ⟨_, hlo, hhi, hnum⟩ := mathRound_roundToDouble n k hn
  have hexp : (roundToDouble n k).exp = k := by unfold roundToDouble; split <;> rfl
  have hk1 : 2 ^ (k + 1) = 2 * 2 ^ k := by rw [pow_succ]; ring
  have hk1pos : 0 < 2 ^ (k + 1) := Nat.two_pow_pos _
  have hkpos : 0 < 2 ^ k := Nat.two_pow_pos k
  generalize (2 * n + 2 ^ k) / 2 ^ (k + 1) = e at *
  have hp : mathRound (roundToDouble n k) =
      (2 * (roundToDouble n k).num + 2 ^ k) / 2 ^ (k + 1) := by
    simp only [mathRound, hexp]
  have h4 : (2 * e + 1) * 2 ^ k = 2 * (e * 2 ^ k) + 2 ^ k := by ring
  split_ifs with hc
  · rw [hp, hc, hk1]
    have : (2 * e + 1) * 2 ^ k + 2 ^ k = (e + 1) * (2 * 2 ^ k) := by ring
    rw [this]
    exact Nat.mul_div_cancel _ (by omega)
  · have hlt : mathRound (roundToDouble n k) < e + 1 := by
      rw [hp]
      apply Nat.div_lt_of_lt_mul
      have h5 : 2 ^ (k + 1) * (e + 1) = 2 * (e * 2 ^ k) + 2 * 2 ^ k := by rw [hk1]; ring
      omega
    omega

theorem similarityPercent_bounds (s : Double) (h1 : s.LeOne) :
    mathRound s.mul100 ≤ 100 ∧ nearestPercentExact s ≤ mathRound s.mul100 ∧
      mathRound s.mul100 ≤ nearestPercentExact s + 1 := by
  have h := mathRound_roundToDouble (s.num * 100) s.exp (by unfold Double.LeOne at h1; omega)
  have e : 2 * (s.num * 100) = 200 * s.num := by ring
  simp only [e] at h
  exact ⟨h.1, h.2.1, h.2.2.1⟩

/-! ## Lemmas: what the script leaves alone -/

theorem Frame.refl (s : State) : Frame s s :=
  ⟨rfl, rfl, rfl, rfl, rfl, rfl, rfl, le_rfl⟩

theorem Frame.trans {a b c : State} (h : Frame a b) (g : Frame b c) : Frame a c :=
  ⟨g.now.trans h.now, g.selectedTitle.trans h.selectedTitle,
   g.recommendBtnDisabled.trans h.recommendBtnDisabled, g.suggestions.trans h.suggestions,
   g.searchTimeout.trans h.searchTimeout, g.searchRequests.trans h.searchRequests,
   g.pending.trans h.pending, le_trans h.nextTimerId g.nextTimerId⟩

theorem setTimeout_frame (st : State) (a : TimerAction) (d : Nat) (ha : a.isSearch = false) :
    Frame st (setTimeout st a d).1 := by
  refine ⟨rfl, rfl, rfl, rfl, rfl, rfl, ?_, Nat.le_succ _⟩
  simp [pendingSearchTimers, setTimeout, List.filter_append, ha]

theorem showError_frame (st : State) (m : String) : Frame st (showError st m) := by
  have h := setTimeout_frame { st with errorText := m, errorActive := true } .hideError 5000 rfl
  exact ⟨h.now, h.selectedTitle, h.recommendBtnDisabled, h.suggestions, h.searchTimeout,
    h.searchRequests, h.pending, h.nextTimerId⟩

theorem appendCards_frame (recs : List Recommendation) :
    ∀ (st : State) (i : Nat), Frame st (appendCards st recs i) := by
  induction recs with
  | nil => intro st i; exact Frame.refl st
  | cons r rest ih =>
    intro st i
    have h1 := setTimeout_frame st (.animateCard i) (i * 50) rfl
    have h2 := ih { (createRecommendationCard st r i).1 with
      grid := (createRecommendationCard st r i).1.grid ++ [(createRecommendationCard st r i).2] } (i + 1)
    have h3 : Frame st { (createRecommendationCard st r i).1 with
      grid := (createRecommendationCard st r i).1.grid ++ [(createRecommendationCard st r i).2] } :=
      ⟨h1.now, h1.selectedTitle, h1.recommendBtnDisabled, h1.suggestions, h1.searchTimeout,
        h1.searchRequests, h1.pending, h1.nextTimerId⟩
    exact h3.trans h2

theorem displayRecommendations_frame (st : State) (recs : List Recommendation) :
    Frame st (displayRecommendations st recs) := by
  have h := appendCards_frame recs
    { st with recCountText := toString recs.length ++ " recommendations found", grid := [] } 0
  exact ⟨h.now, h.selectedTitle, h.recommendBtnDisabled, h.suggestions, h.searchTimeout,
    h.searchRequests, h.pending, h.nextTimerId⟩

theorem displayResults_frame (st : State) (data : RecommendData) :
    Frame st (displayResults st data).1 := by
  unfold displayResults
  cases data.source with
  | none => exact Frame.refl st
  | some source =>
    cases data.recommendations with
    | none => exact ⟨rfl, rfl, rfl, rfl, rfl, rfl, rfl, le_rfl⟩
    | some recs =>
      have h := displayRecommendations_frame (displaySourceTitle st source) recs
      exact ⟨h.now, h.selectedTitle, h.recommendBtnDisabled, h.suggestions, h.searchTimeout,
        h.searchRequests, h.pending, h.nextTimerId⟩

theorem getRecommendationsTry_frame (st : State) (outcome : RecommendOutcome) :
    Frame st (getRecommendationsTry st outcome).1 := by
  unfold getRecommendationsTry
  split
  · exact Frame.refl st
  · exact Frame.refl st
  · exact Frame.refl st
  · exact Frame.refl st
  · exact displayResults_frame st _

theorem getRecommendationsSettled_frame (st : State) (outcome : RecommendOutcome) :
    Frame st (getRecommendationsSettled st outcome) := by
  have h1 := getRecommendationsTry_frame st outcome
  unfold getRecommendationsSettled
  generalize getRecommendationsTry st outcome = r at h1
  obtain ⟨s1, o⟩ := r
  cases o with
  | none =>
    exact ⟨h1.now, h1.selectedTitle, h1.recommendBtnDisabled, h1.suggestions, h1.searchTimeout,
      h1.searchRequests, h1.pending, h1.nextTimerId⟩
  | some m =>
    have h := h1.trans (showError_frame s1 m)
    exact ⟨h.now, h.selectedTitle, h.recommendBtnDisabled, h.suggestions, h.searchTimeout,
      h.searchRequests, h.pending, h.nextTimerId⟩

theorem Inv.of_frame {s t : State} (h : Frame s t) (hi : Inv s) : Inv t := by
  refine ⟨lt_of_lt_of_le hi.1 h.nextTimerId, ?_⟩
  rw [h.pending, h.searchTimeout]
  exact hi.2

theorem pendingSearchTimers_clearTimeout (st : State) (id : Nat) :
    pendingSearchTimers (clearTimeout st id) =
      (pendingSearchTimers st).filter (fun t => t.id != id) := by
  simp only [pendingSearchTimers, clearTimeout, List.filter_filter]
  congr 1
  funext t
  exact Bool.and_comm _ _

/-- What `handleSearch` does to the debounce timer, from a state with the timer discipline. -/
theorem handleSearch_spec (st : State) (hi : Inv st) :
    (handleSearch st).searchRequests = st.searchRequests ∧
    (handleSearch st).now = st.now ∧
    (handleSearch st).selectedTitle = st.selectedTitle ∧
    (jsLength (jsTrim st.searchInputValue) < 2 →
      pendingSearchTimers (handleSearch st) = [] ∧
      (handleSearch st).nextTimerId = st.nextTimerId ∧
      (handleSearch st).searchTimeout = st.searchTimeout ∧
      (handleSearch st).suggestions = [] ∧
      (handleSearch st).suggestionsActive = false ∧
      (handleSearch st).recommendBtnDisabled = true) ∧
    (¬ jsLength (jsTrim st.searchInputValue) < 2 →
      pendingSearchTimers (handleSearch st) =
        [⟨st.nextTimerId, st.now + 300, .searchTitles (jsTrim st.searchInputValue)⟩] ∧
      (handleSearch st).nextTimerId = st.nextTimerId + 1 ∧
      (handleSearch st).searchTimeout = some st.nextTimerId ∧
      (handleSearch st).suggestions = st.suggestions ∧
      (handleSearch st).recommendBtnDisabled = st.recommendBtnDisabled) := by
  -- the state after the `clearTimeout` of `handleSearch`
  let st1 : State :=
    match st.searchTimeout with
    | some id => if id ≠ 0 then clearTimeout st id else st
    | none => st
  have hst1 : st1.searchRequests = st.searchRequests ∧ st1.now = st.now ∧
      st1.selectedTitle = st.selectedTitle ∧ st1.nextTimerId = st.nextTimerId ∧
      st1.searchTimeout = st.searchTimeout ∧ st1.suggestions = st.suggestions ∧
      st1.recommendBtnDisabled = st.recommendBtnDisabled ∧
      st1.searchInputValue = st.searchInputValue := by
    simp only [st1]
    rcases hto : st.searchTimeout with _ | id
    · simp [hto]
    · by_cases h : id = 0 <;> simp [h, clearTimeout, hto]
  have hp1 : pendingSearchTimers st1 = [] := by
    simp only [st1]
    rcases hi.2 with h | ⟨t, ht, hs, h0⟩
    · rcases hto : st.searchTimeout with _ | id
      · exact h
      · by_cases hid : id = 0
        · simp [hid, h]
        · simp [hid, pendingSearchTimers_clearTimeout, h]
    · rw [hs]
      simp [h0, pendingSearchTimers_clearTimeout, ht]
  obtain ⟨e1, e2, e3, e4, e5, e6, e7, e8⟩ := hst1
  have hs : handleSearch st =
      if jsLength (jsTrim st.searchInputValue) < 2 then
        { st1 with suggestions := [], suggestionsActive := false, recommendBtnDisabled := true }
      else
        { (setTimeout st1 (.searchTitles (jsTrim st.searchInputValue)) 300).1 with
          searchTimeout := some (setTimeout st1 (.searchTitles (jsTrim st.searchInputValue)) 300).2 } := rfl
  by_cases hq : jsLength (jsTrim st.searchInputValue) < 2
  · rw [hs, if_pos hq]
    refine ⟨e1, e2, e3, fun _ => ⟨hp1, e4, e5, rfl, rfl, rfl⟩, fun h => absurd hq h⟩
  · rw [hs, if_neg hq]
    refine ⟨e1, e2, e3, fun h => absurd h hq, fun _ => ⟨?_, ?_, ?_, e6, e7⟩⟩
    · have : pendingSearchTimers
          { (setTimeout st1 (.searchTitles (jsTrim st.searchInputValue)) 300).1 with
            searchTimeout := some (setTimeout st1 (.searchTitles (jsTrim st.searchInputValue)) 300).2 }
          = pendingSearchTimers st1 ++
            [⟨st1.nextTimerId, st1.now + 300, .searchTitles (jsTrim st.searchInputValue)⟩] := by
        simp [pendingSearchTimers, setTimeout, List.filter_append, TimerAction.isSearch]
      rw [this, hp1, e4, e2]
      rfl
    · show st1.nextTimerId + 1 = _
      rw [e4]
    · show some st1.nextTimerId = _
      rw [e4]

theorem handleSearch_inv (st : State) (hi : Inv st) : Inv (handleSearch st) := by
  obtain ⟨_, _, _, hshort, hlong⟩ := handleSearch_spec st hi
  by_cases hq : jsLength (jsTrim st.searchInputValue) < 2
  · obtain ⟨hp, hn, _⟩ := hshort hq
    exact ⟨by rw [hn]; exact hi.1, Or.inl hp⟩
  · obtain ⟨hp, hn, hst, _⟩ := hlong hq
    refine ⟨by rw [hn]; omega, Or.inr ⟨_, hp, hst, ?_⟩⟩
    exact Nat.ne_of_gt hi.1

theorem step_other (s : State) (e : Event) (hin : e.isInput = false)
    (hf : ∀ id, e ≠ .fire id) :
    (step s e).now = s.now + e.elapsed ∧
    (step s e).searchTimeout = s.searchTimeout ∧
    (step s e).searchRequests = s.searchRequests ∧
    pendingSearchTimers (step s e) = pendingSearchTimers s ∧
    s.nextTimerId ≤ (step s e).nextTimerId := by
  cases e with
  | input v => simp [Event.isInput] at hin
  | fire id => exact absurd rfl (hf id)
  | focus =>
    simp only [step, Event.elapsed]
    split <;> exact ⟨rfl, rfl, rfl, rfl, le_rfl⟩
  | clickOutside => exact ⟨rfl, rfl, rfl, rfl, le_rfl⟩
  | clickSuggestion i =>
    simp only [step, Event.elapsed]
    split <;> exact ⟨rfl, rfl, rfl, rfl, le_rfl⟩
  | selectTitle t => exact ⟨rfl, rfl, rfl, rfl, le_rfl⟩
  | clickRecommend =>
    simp only [step, Event.elapsed]
    split
    · exact ⟨rfl, rfl, rfl, rfl, le_rfl⟩
    · split <;> exact ⟨rfl, rfl, rfl, rfl, le_rfl⟩
  | pressEnter =>
    simp only [step, Event.elapsed]
    split
    · split <;> exact ⟨rfl, rfl, rfl, rfl, le_rfl⟩
    · exact ⟨rfl, rfl, rfl, rfl, le_rfl⟩
  | advance ms => exact ⟨rfl, rfl, rfl, rfl, le_rfl⟩
  | searchSettled r =>
    cases r with
    | none => exact ⟨rfl, rfl, rfl, rfl, le_rfl⟩
    | some titles =>
      simp only [step, searchTitlesSettled, displaySuggestions, Event.elapsed]
      split <;> exact ⟨rfl, rfl, rfl, rfl, le_rfl⟩
  | recommendSettled o =>
    have h := getRecommendationsSettled_frame s o
    exact ⟨h.now, h.searchTimeout, h.searchRequests, h.pending, h.nextTimerId⟩

/-- What firing a timer does to the debounce, from a state with the timer discipline. -/
theorem fireTimer_spec (s : State) (id : Nat) (hi : Inv s) :
    (fireTimer s id).now = s.now ∧
    (fireTimer s id).searchTimeout = s.searchTimeout ∧
    (fireTimer s id).nextTimerId = s.nextTimerId ∧
    (((fireTimer s id).searchRequests = s.searchRequests ∧
        (pendingSearchTimers (fireTimer s id) = pendingSearchTimers s ∨
          pendingSearchTimers (fireTimer s id) = [])) ∨
      (∃ t q, pendingSearchTimers s = [t] ∧ t.action = .searchTitles q ∧ t.due ≤ s.now ∧
        (fireTimer s id).searchRequests = s.searchRequests ++ [q] ∧
        pendingSearchTimers (fireTimer s id) = [])) := by
  unfold fireTimer
  split
  case h_2 => exact ⟨rfl, rfl, rfl, Or.inl ⟨rfl, Or.inl rfl⟩⟩
  case h_1 t hfind =>
    have hmem : t ∈ s.timers := List.mem_of_find?_eq_some hfind
    have hid : t.id = id := by
      have := List.find?_some hfind
      simpa using this
    by_cases hdue : t.due ≤ s.now
    · rw [if_pos hdue]
      have hpend : ∀ u : State, u.timers = s.timers.filter (fun u => u.id != id) →
          pendingSearchTimers u = (pendingSearchTimers s).filter (fun u => u.id != id) := by
        intro u hu
        simp only [pendingSearchTimers, hu, List.filter_filter]
        congr 1
        funext t
        exact Bool.and_comm _ _
      have hsub : ∀ u : State, u.timers = s.timers.filter (fun u => u.id != id) →
          (pendingSearchTimers u = pendingSearchTimers s ∨ pendingSearchTimers u = []) := by
        intro u hu
        rw [hpend u hu]
        rcases hi.2 with h | ⟨w, hw, _, _⟩
        · rw [h]; right; rfl
        · rw [hw]
          by_cases hwid : w.id = id
          · right; simp [hwid]
          · left; simp [hwid]
      rcases hact : t.action with q | _ | i
      · refine ⟨rfl, rfl, rfl, Or.inr ⟨t, q, ?_, hact, hdue, rfl, ?_⟩⟩
        · have htp : t ∈ pendingSearchTimers s := by
            simp [pendingSearchTimers, hmem, hact, TimerAction.isSearch]
          rcases hi.2 with h | ⟨w, hw, _, _⟩
          · rw [h] at htp; simp at htp
          · rw [hw] at htp
            simp only [List.mem_singleton] at htp
            rw [hw, htp]
        · have htp : t ∈ pendingSearchTimers s := by
            simp [pendingSearchTimers, hmem, hact, TimerAction.isSearch]
          simp only [runTimer, searchTitles]
          rw [hpend _ rfl]
          rcases hi.2 with h | ⟨w, hw, _, _⟩
          · rw [h]; rfl
          · rw [hw] at htp
            simp only [List.mem_singleton] at htp
            rw [hw, ← htp]
            simp [hid]
      · exact ⟨rfl, rfl, rfl, Or.inl ⟨rfl, hsub _ rfl⟩⟩
      · exact ⟨rfl, rfl, rfl, Or.inl ⟨rfl, hsub _ rfl⟩⟩
    · rw [if_neg hdue]
      exact ⟨rfl, rfl, rfl, Or.inl ⟨rfl, Or.inl rfl⟩⟩

theorem step_inv (s : State) (e : Event) (hi : Inv s) : Inv (step s e) := by
  by_cases hin : e.isInput = true
  · cases e with
    | input v => exact handleSearch_inv { s with searchInputValue := v } hi
    | _ => simp [Event.isInput] at hin
  · by_cases hf : ∃ id, e = .fire id
    · obtain ⟨id, rfl⟩ := hf
      obtain ⟨_, hto, hn, h⟩ := fireTimer_spec s id hi
      have e : step s (.fire id) = fireTimer s id := rfl
      rw [e]
      refine ⟨?_, ?_⟩
      · rw [hn]; exact hi.1
      · rcases h with ⟨_, h | h⟩ | ⟨_, _, _, _, _, _, h⟩
        · rw [h, hto]; exact hi.2
        · exact Or.inl h
        · exact Or.inl h
    · have hf2 : ∀ id, e ≠ .fire id := fun id h => hf ⟨id, h⟩
      obtain ⟨_, hto, _, hp, hn⟩ := step_other s e (by simpa using hin) hf2
      refine ⟨lt_of_lt_of_le hi.1 hn, ?_⟩
      rw [hp, hto]
      exact hi.2

theorem run_inv (events : List Event) : ∀ s, Inv s → Inv (run s events) := by
  induction events with
  | nil => intro s h; exact h
  | cons e rest ih => intro s h; exact ih _ (step_inv s e h)

theorem initialState_inv (method count : String) : Inv (initialState method count) :=
  ⟨Nat.one_pos, Or.inl rfl⟩

theorem Reachable.inv {s : State} (h : Reachable s) : Inv s := by
  obtain ⟨m, c, evs, rfl⟩ := h
  exact run_inv evs _ (initialState_inv m c)

/-! ## Lemmas: selection -/

theorem handleSearch_fields (st : State) :
    (handleSearch st).selectedTitle = st.selectedTitle ∧
    ((handleSearch st).recommendBtnDisabled = true ∨
      (handleSearch st).recommendBtnDisabled = st.recommendBtnDisabled) ∧
    ((handleSearch st).suggestions = [] ∨ (handleSearch st).suggestions = st.suggestions) := by
  unfold handleSearch
  rcases hto : st.searchTimeout with _ | id
  · by_cases hq : jsLength (jsTrim st.searchInputValue) < 2
    · simp [hq]
    · simp [hq, setTimeout]
  · by_cases hq : jsLength (jsTrim st.searchInputValue) < 2 <;> by_cases hid : id = 0 <;>
      simp [hq, hid, setTimeout, clearTimeout]

theorem fireTimer_fields (st : State) (id : Nat) :
    (fireTimer st id).selectedTitle = st.selectedTitle ∧
    (fireTimer st id).recommendBtnDisabled = st.recommendBtnDisabled ∧
    (fireTimer st id).suggestions = st.suggestions := by
  unfold fireTimer
  split
  case h_2 => exact ⟨rfl, rfl, rfl⟩
  case h_1 t _ =>
    by_cases hdue : t.due ≤ st.now
    · rw [if_pos hdue]
      cases t.action <;> exact ⟨rfl, rfl, rfl⟩
    · rw [if_neg hdue]
      exact ⟨rfl, rfl, rfl⟩

/-- Invariant behind the enabled button: an enabled button comes with a
non-empty selection, and every suggestion on display carries a non-empty title. -/
theorem step_selection (s : State) (e : Event) (he : e.titlesNonEmpty = true)
    (h1 : s.recommendBtnDisabled = false → s.selectedTitle ≠ "")
    (h2 : ∀ item ∈ s.suggestions, item.clickTitle ≠ "") :
    ((step s e).recommendBtnDisabled = false → (step s e).selectedTitle ≠ "") ∧
    (∀ item ∈ (step s e).suggestions, item.clickTitle ≠ "") := by
  cases e with
  | input v =>
    obtain ⟨a, b, c⟩ := handleSearch_fields { s with searchInputValue := v }
    simp only [step]
    refine ⟨?_, ?_⟩
    · intro hd
      rw [a]
      rcases b with b | b
      · rw [b] at hd; cases hd
      · rw [b] at hd; exact h1 hd
    · rcases c with c | c
      · rw [c]; intro item hi; cases hi
      · rw [c]; exact h2
  | fire id =>
    obtain ⟨a, b, c⟩ := fireTimer_fields s id
    simp only [step]
    rw [a, b, c]
    exact ⟨h1, h2⟩
  | focus =>
    simp only [step]
    split <;> exact ⟨h1, h2⟩
  | clickOutside => exact ⟨h1, h2⟩
  | clickSuggestion i =>
    simp only [step]
    split
    case h_1 item hget =>
      have hm : item ∈ s.suggestions := List.get?_mem hget
      exact ⟨fun _ => h2 item hm, h2⟩
    case h_2 => exact ⟨h1, h2⟩
  | selectTitle t =>
    refine ⟨fun _ => ?_, h2⟩
    simpa [Event.titlesNonEmpty] using he
  | clickRecommend =>
    simp only [step]
    split
    · exact ⟨h1, h2⟩
    · split <;> exact ⟨h1, h2⟩
  | pressEnter =>
    simp only [step]
    split
    · split <;> exact ⟨h1, h2⟩
    · exact ⟨h1, h2⟩
  | advance ms => exact ⟨h1, h2⟩
  | searchSettled r =>
    cases r with
    | none => exact ⟨h1, h2⟩
    | some titles =>
      simp only [step, searchTitlesSettled, displaySuggestions]
      split
      · exact ⟨h1, fun item hi => by cases hi⟩
      · refine ⟨h1, ?_⟩
        intro item hi
        simp only [List.nil_append, List.mem_map] at hi
        obtain ⟨t, ht, rfl⟩ := hi
        simp only [Event.titlesNonEmpty, List.all_eq_true] at he
        simpa [suggestionItem] using he t ht
  | recommendSettled o =>
    have h := getRecommendationsSettled_frame s o
    simp only [step]
    rw [h.selectedTitle, h.recommendBtnDisabled, h.suggestions]
    exact ⟨h1, h2⟩

theorem run_selection (events : List Event) :
    ∀ s : State, (∀ e ∈ events, e.titlesNonEmpty = true) →
      (s.recommendBtnDisabled = false → s.selectedTitle ≠ "") →
      (∀ item ∈ s.suggestions, item.clickTitle ≠ "") →
      ((run s events).recommendBtnDisabled = false → (run s events).selectedTitle ≠ "") := by
  induction events with
  | nil => intro s _ h1 _; exact h1
  | cons e rest ih =>
    intro s he h1 h2
    obtain ⟨a, b⟩ := step_selection s e (he e (List.mem_cons_self _ _)) h1 h2
    exact ih (step s e) (fun x hx => he x (List.mem_cons_of_mem _ hx)) a b


/-! ## Lemmas: debounce -/

theorem run_cons (s : State) (e : Event) (rest : List Event) :
    run s (e :: rest) = run (step s e) rest := rfl

theorem run_append (s : State) (a b : List Event) : run s (a ++ b) = run (run s a) b := by
  simp [run, List.foldl_append]

theorem elapsed_cons (e : Event) (rest : List Event) :
    elapsed (e :: rest) = e.elapsed + elapsed rest := by
  simp [elapsed]

/-- While less than the debounce delay has passed since it was set, a pending
debounce timer neither fires nor changes, and no request is issued. -/
theorem run_gap (q : String) (due : Nat) (log : List String) (gap : List Event) :
    ∀ s : State, (∀ e ∈ gap, e.isInput = false) → Inv s → s.searchRequests = log →
      (∀ t ∈ pendingSearchTimers s, t.action = .searchTitles q ∧ t.due = due) →
      s.now + elapsed gap < due →
      Inv (run s gap) ∧ (run s gap).searchRequests = log ∧
      (∀ t ∈ pendingSearchTimers (run s gap), t.action = .searchTitles q ∧ t.due = due) ∧
      (run s gap).now = s.now + elapsed gap := by
  induction gap with
  | nil => intro s _ hi hl hp _; exact ⟨hi, hl, hp, by simp [run, elapsed]⟩
  | cons e rest ih =>
    intro s hin hi hl hp hlt
    rw [elapsed_cons] at hlt
    have hi1 := step_inv s e hi
    have hrest : ∀ x ∈ rest, x.isInput = false := fun x hx => hin x (List.mem_cons_of_mem _ hx)
    have key : (step s e).now = s.now + e.elapsed ∧ (step s e).searchRequests = log ∧
        (∀ t ∈ pendingSearchTimers (step s e), t.action = .searchTitles q ∧ t.due = due) := by
      by_cases hf : ∃ id, e = .fire id
      · obtain ⟨id, rfl⟩ := hf
        have e1 : step s (.fire id) = fireTimer s id := rfl
        obtain ⟨hnow, _, _, h⟩ := fireTimer_spec s id hi
        rw [e1]
        rcases h with ⟨hr, h | h⟩ | ⟨t, q2, ht, _, hdue, _, _⟩
        · refine ⟨by simp [hnow, Event.elapsed], hr.trans hl, ?_⟩
          rw [h]; exact hp
        · refine ⟨by simp [hnow, Event.elapsed], hr.trans hl, ?_⟩
          rw [h]; intro t ht; cases ht
        · have := (hp t (by rw [ht]; exact List.mem_singleton_self t)).2
          omega
      · have hf2 : ∀ id, e ≠ .fire id := fun id h => hf ⟨id, h⟩
        obtain ⟨hnow, _, hr, hpe, _⟩ := step_other s e (hin e (List.mem_cons_self _ _)) hf2
        refine ⟨hnow, hr.trans hl, ?_⟩
        rw [hpe]; exact hp
    obtain ⟨k1, k2, k3⟩ := key
    have := ih (step s e) hrest hi1 k2 k3 (by rw [k1]; omega)
    rw [run_cons, elapsed_cons]
    refine ⟨this.1, this.2.1, this.2.2.1, ?_⟩
    rw [this.2.2.2, k1]
    omega

/-- Without further input, a pending debounce timer issues its request at most once. -/
theorem run_tail (q : String) (log : List String) (tail : List Event) :
    ∀ s : State, (∀ e ∈ tail, e.isInput = false) → Inv s →
      ((s.searchRequests = log ∧ ∀ t ∈ pendingSearchTimers s, t.action = .searchTitles q) ∨
        (s.searchRequests = log ++ [q] ∧ pendingSearchTimers s = [])) →
      ((run s tail).searchRequests = log ∨ (run s tail).searchRequests = log ++ [q]) := by
  induction tail with
  | nil =>
    intro s _ _ h
    rcases h with ⟨h, _⟩ | ⟨h, _⟩
    · exact Or.inl h
    · exact Or.inr h
  | cons e rest ih =>
    intro s hin hi h
    have hrest : ∀ x ∈ rest, x.isInput = false := fun x hx => hin x (List.mem_cons_of_mem _ hx)
    rw [run_cons]
    apply ih (step s e) hrest (step_inv s e hi)
    by_cases hf : ∃ id, e = .fire id
    · obtain ⟨id, rfl⟩ := hf
      have e1 : step s (.fire id) = fireTimer s id := rfl
      obtain ⟨_, _, _, hfire⟩ := fireTimer_spec s id hi
      rw [e1]
      rcases h with ⟨hl, hp⟩ | ⟨hl, hp⟩
      · rcases hfire with ⟨hr, h | h⟩ | ⟨t, q2, ht, hact, _, hr, hpe⟩
        · left; refine ⟨hr.trans hl, ?_⟩; rw [h]; exact hp
        · left; refine ⟨hr.trans hl, ?_⟩; rw [h]; intro t ht; cases ht
        · right
          have hq := hp t (by rw [ht]; exact List.mem_singleton_self t)
          rw [hact] at hq
          injection hq with hq
          refine ⟨?_, hpe⟩
          rw [hr, hl, hq]
      · rcases hfire with ⟨hr, h | h⟩ | ⟨t, q2, ht, _, _, _, _⟩
        · right; refine ⟨hr.trans hl, ?_⟩; rw [h]; exact hp
        · right; exact ⟨hr.trans hl, h⟩
        · rw [hp] at ht; cases ht
    · have hf2 : ∀ id, e ≠ .fire id := fun id h => hf ⟨id, h⟩
      obtain ⟨_, _, hr, hpe, _⟩ := step_other s e (hin e (List.mem_cons_self _ _)) hf2
      rcases h with ⟨hl, hp⟩ | ⟨hl, hp⟩
      · left; refine ⟨hr.trans hl, ?_⟩; rw [hpe]; exact hp
      · right; refine ⟨hr.trans hl, ?_⟩; rw [hpe]; exact hp

/-- State right after an `input` event. -/
theorem step_input_spec (s : State) (v : String) (hi : Inv s) :
    Inv (step s (.input v)) ∧ (step s (.input v)).searchRequests = s.searchRequests ∧
    (step s (.input v)).now = s.now ∧
    pendingSearchTimers (step s (.input v)) =
      (if jsLength (jsTrim v) < 2 then []
       else [⟨s.nextTimerId, s.now + 300, .searchTitles (jsTrim v)⟩]) := by
  have hi2 : Inv { s with searchInputValue := v } := hi
  obtain ⟨a, b, _, hshort, hlong⟩ := handleSearch_spec { s with searchInputValue := v } hi2
  refine ⟨handleSearch_inv _ hi2, a, b, ?_⟩
  by_cases hq : jsLength (jsTrim v) < 2
  · rw [if_pos hq]; exact (hshort hq).1
  · rw [if_neg hq]; exact (hlong hq).1

theorem lastValue_cons (v : String) (g : List Event × String) (rest : List (List Event × String)) :
    lastValue v (g :: rest) = lastValue g.2 rest := by
  cases rest with
  | nil => rfl
  | cons h t =>
    simp only [lastValue, List.getLast?_cons_cons]
    rw [List.getLast?_eq_getLast (h :: t) (List.cons_ne_nil h t)]

theorem burstEvents_cons (v : String) (g : List Event × String)
    (rest : List (List Event × String)) :
    burstEvents v (g :: rest) = .input v :: (g.1 ++ burstEvents g.2 rest) := by
  simp [burstEvents]

/-- At the end of a burst the only debounce timer that can be pending is the one
of the last keystroke, and no request has been issued. -/
theorem run_burst (rest : List (List Event × String)) :
    ∀ (s : State) (v : String), Inv s →
      (∀ g ∈ rest, (∀ e ∈ g.1, e.isInput = false) ∧ elapsed g.1 < 300) →
      Inv (run s (burstEvents v rest)) ∧
      (run s (burstEvents v rest)).searchRequests = s.searchRequests ∧
      (∀ t ∈ pendingSearchTimers (run s (burstEvents v rest)),
        t.action = .searchTitles (jsTrim (lastValue v rest))) := by
  induction rest with
  | nil =>
    intro s v hi _
    obtain ⟨a, b, _, d⟩ := step_input_spec s v hi
    refine ⟨a, b, ?_⟩
    show ∀ t ∈ pendingSearchTimers (step s (.input v)), _
    rw [d]
    intro t ht
    by_cases hq : jsLength (jsTrim v) < 2
    · rw [if_pos hq] at ht; cases ht
    · rw [if_neg hq] at ht
      simp only [List.mem_singleton] at ht
      rw [ht]; rfl
  | cons g rest ih =>
    intro s v hi hg
    obtain ⟨a, b, c, d⟩ := step_input_spec s v hi
    obtain ⟨hg1, hg2⟩ := hg g (List.mem_cons_self _ _)
    have hp : ∀ t ∈ pendingSearchTimers (step s (.input v)),
        t.action = .searchTitles (jsTrim v) ∧ t.due = s.now + 300 := by
      rw [d]
      intro t ht
      by_cases hq : jsLength (jsTrim v) < 2
      · rw [if_pos hq] at ht; cases ht
      · rw [if_neg hq] at ht
        simp only [List.mem_singleton] at ht
        rw [ht]; exact ⟨rfl, rfl⟩
    obtain ⟨i2, r2, _, _⟩ := run_gap (jsTrim v) (s.now + 300) s.searchRequests g.1
      (step s (.input v)) hg1 a b hp (by rw [c]; omega)
    have := ih (run (step s (.input v)) g.1) g.2 i2
      (fun x hx => hg x (List.mem_cons_of_mem _ hx))
    rw [burstEvents_cons, run_cons, run_append, lastValue_cons]
    exact ⟨this.1, this.2.1.trans r2, this.2.2⟩


/-! ## Lemmas: rendering of results -/

theorem handleSearch_results (st : State) :
    (handleSearch st).resultsActive = st.resultsActive ∧
    (handleSearch st).grid = st.grid ∧
    (handleSearch st).sourceTitleHtml = st.sourceTitleHtml ∧
    (handleSearch st).recCountText = st.recCountText := by
  unfold handleSearch
  rcases hto : st.searchTimeout with _ | id
  · by_cases hq : jsLength (jsTrim st.searchInputValue) < 2
    · simp [hq]
    · simp [hq, setTimeout]
  · by_cases hq : jsLength (jsTrim st.searchInputValue) < 2 <;> by_cases hid : id = 0 <;>
      simp [hq, hid, setTimeout, clearTimeout]

theorem fireTimer_results (st : State) (id : Nat) :
    (fireTimer st id).resultsActive = st.resultsActive ∧
    (fireTimer st id).grid = st.grid ∧
    (fireTimer st id).sourceTitleHtml = st.sourceTitleHtml ∧
    (fireTimer st id).recCountText = st.recCountText := by
  unfold fireTimer
  split
  case h_2 => exact ⟨rfl, rfl, rfl, rfl⟩
  case h_1 t _ =>
    by_cases hdue : t.due ≤ st.now
    · rw [if_pos hdue]
      cases t.action <;> exact ⟨rfl, rfl, rfl, rfl⟩
    · rw [if_neg hdue]
      exact ⟨rfl, rfl, rfl, rfl⟩

/-- Handling a response that is not a 2xx response renders nothing. -/
theorem getRecommendationsSettled_results (st : State) (outcome : RecommendOutcome)
    (h : ∀ body, outcome ≠ .ok body) :
    (getRecommendationsSettled st outcome).resultsActive = st.resultsActive ∧
    (getRecommendationsSettled st outcome).grid = st.grid ∧
    (getRecommendationsSettled st outcome).sourceTitleHtml = st.sourceTitleHtml ∧
    (getRecommendationsSettled st outcome).recCountText = st.recCountText := by
  cases outcome with
  | networkFailure m => exact ⟨rfl, rfl, rfl, rfl⟩
  | notOk body => cases body <;> exact ⟨rfl, rfl, rfl, rfl⟩
  | ok body => exact absurd rfl (h body)

theorem step_results (s : State) (e : Event) (he : e.isOkSettled = false)
    (h : s.resultsActive = false) :
    (step s e).resultsActive = false ∧
    (step s e).grid = s.grid ∧
    (step s e).sourceTitleHtml = s.sourceTitleHtml ∧
    (step s e).recCountText = s.recCountText := by
  cases e with
  | input v =>
    obtain ⟨a, b, c, d⟩ := handleSearch_results { s with searchInputValue := v }
    exact ⟨a.trans h, b, c, d⟩
  | fire id =>
    obtain ⟨a, b, c, d⟩ := fireTimer_results s id
    exact ⟨a.trans h, b, c, d⟩
  | focus =>
    simp only [step]
    split <;> exact ⟨h, rfl, rfl, rfl⟩
  | clickOutside => exact ⟨h, rfl, rfl, rfl⟩
  | clickSuggestion i =>
    simp only [step]
    split <;> exact ⟨h, rfl, rfl, rfl⟩
  | selectTitle t => exact ⟨h, rfl, rfl, rfl⟩
  | clickRecommend =>
    simp only [step]
    split
    · exact ⟨h, rfl, rfl, rfl⟩
    · split
      · exact ⟨h, rfl, rfl, rfl⟩
      · exact ⟨rfl, rfl, rfl, rfl⟩
  | pressEnter =>
    simp only [step]
    split
    · split
      · exact ⟨h, rfl, rfl, rfl⟩
      · exact ⟨rfl, rfl, rfl, rfl⟩
    · exact ⟨h, rfl, rfl, rfl⟩
  | advance ms => exact ⟨h, rfl, rfl, rfl⟩
  | searchSettled r =>
    cases r with
    | none => exact ⟨h, rfl, rfl, rfl⟩
    | some titles =>
      simp only [step, searchTitlesSettled, displaySuggestions]
      split <;> exact ⟨h, rfl, rfl, rfl⟩
  | recommendSettled o =>
    have hno : ∀ body, o ≠ .ok body := by
      intro body hb
      rw [hb] at he
      simp [Event.isOkSettled] at he
    obtain ⟨a, b, c, d⟩ := getRecommendationsSettled_results s o hno
    exact ⟨a.trans h, b, c, d⟩

theorem run_results (events : List Event) :
    ∀ s : State, (∀ e ∈ events, e.isOkSettled = false) → s.resultsActive = false →
      (run s events).resultsActive = false ∧
      (run s events).grid = s.grid ∧
      (run s events).sourceTitleHtml = s.sourceTitleHtml ∧
      (run s events).recCountText = s.recCountText := by
  induction events with
  | nil => intro s _ h; exact ⟨h, rfl, rfl, rfl⟩
  | cons e rest ih =>
    intro s he h
    obtain ⟨a, b, c, d⟩ := step_results s e (he e (List.mem_cons_self _ _)) h
    obtain ⟨a2, b2, c2, d2⟩ := ih (step s e) (fun x hx => he x (List.mem_cons_of_mem _ hx)) a
    exact ⟨a2, b2.trans b, c2.trans c, d2.trans d⟩

/-! ## Lemmas: templates -/

theorem interp_eq (v : Option String) : interp v = v.getD "undefined" := by
  cases v <;> rfl

theorem knownOr_eq (v : Option String) (dflt : String) :
    knownOr v dflt =
      if v = none ∨ v = some "" ∨ v = some "Unknown" then dflt else v.getD "" := by
  cases v with
  | none => simp [knownOr]
  | some s =>
    by_cases h1 : s = ""
    · simp [knownOr, h1]
    · by_cases h2 : s = "Unknown"
      · simp [knownOr, h2]
      · simp [knownOr, h1, h2]

theorem jsOr_eq (v : Option String) (dflt : String) :
    jsOr v dflt = if v = none ∨ v = some "" then dflt else v.getD "" := by
  cases v with
  | none => simp [jsOr]
  | some s =>
    by_cases h1 : s = ""
    · simp [jsOr, h1]
    · simp [jsOr, h1]

theorem displaySuggestions_suggestions (st : State) (titles : List SearchResultItem) :
    (displaySuggestions st titles).suggestions = titles.map suggestionItem ∧
    (displaySuggestions st titles).suggestionsActive = !titles.isEmpty := by
  cases titles with
  | nil => simp [displaySuggestions]
  | cons t rest => simp [displaySuggestions]

/-! ## The claims -/

set_option maxRecDepth 100000 in
/-- C1. For every string `s`, `escapeHtml s` contains no `<` and no `>`: each is
replaced by its entity, and `&` by `&amp;`, character by character.
`displaySuggestions` puts one item per search result in the dropdown, and the
markup of an item, of the source panel and of a recommendation card is the fixed
template in which every free-text property stands as `escapeHtml` of that
property: the title and the description as they are (a missing description as the
empty string), the genres, cast and director of a card after their fallback
("N/A" for missing or empty genres, the "not available" texts for a missing, empty
or "Unknown" cast or director); the source panel inserts no genres, cast or
director.  Hence the number of `<` and of `>` in the markup is the same whatever
these properties hold.  For the source titled `<script>x</script>` the source-name
element holds `&lt;script&gt;x&lt;/script&gt;`. -/
theorem escapeHtml_neutralises_markup :
    (∀ s : String, countChar '<' (escapeHtml s) = 0 ∧ countChar '>' (escapeHtml s) = 0) ∧
    (escapeHtml "<" = "&lt;" ∧ escapeHtml ">" = "&gt;" ∧ escapeHtml "&" = "&amp;") ∧
    (∀ a b : String, escapeHtml (a ++ b) = escapeHtml a ++ escapeHtml b) ∧
    (∀ t : SearchResultItem,
      countChar '<' (suggestionItem t).innerHTML =
        countChar '<' (suggestionItem t.blank).innerHTML ∧
      countChar '>' (suggestionItem t).innerHTML =
        countChar '>' (suggestionItem t.blank).innerHTML) ∧
    (∀ (st : State) (source : SourceTitle),
      countChar '<' (displaySourceTitle st source).sourceTitleHtml =
        countChar '<' (displaySourceTitle st source.blank).sourceTitleHtml ∧
      countChar '>' (displaySourceTitle st source).sourceTitleHtml =
        countChar '>' (displaySourceTitle st source.blank).sourceTitleHtml) ∧
    (∀ (st : State) (rec : Recommendation) (index : Nat),
      countChar '<' (createRecommendationCard st rec index).2.innerHTML =
        countChar '<' (createRecommendationCard st rec.blank index).2.innerHTML ∧
      countChar '>' (createRecommendationCard st rec index).2.innerHTML =
        countChar '>' (createRecommendationCard st rec.blank index).2.innerHTML) ∧
    (∀ st : State, (displaySourceTitle st exampleSource).sourceTitleHtml =
      "\n        <div class=\"source-label\">You selected:</div>\n        <div class=\"source-name\">&lt;script&gt;x&lt;/script&gt;</div>\n        <div class=\"source-details\">\n            <span class=\"source-tag\">Movie</span>\n            <span class=\"source-tag\">2020</span>\n            <span class=\"source-tag\">PG</span>\n            <span class=\"source-tag\">90 min</span>\n        </div>\n        <div class=\"source-description\">d</div>\n    ") ∧
    (∀ (st : State) (titles : List SearchResultItem),
      (displaySuggestions st titles).suggestions = titles.map suggestionItem) ∧
    (∀ t : SearchResultItem,
      (suggestionItem t).innerHTML =
        "\n            <div class=\"suggestion-title\">" ++
        escapeHtml t.title ++
        "</div>\n            <div class=\"suggestion-meta\">" ++
        t.type ++
        " • " ++
        toString t.release_year ++
        "</div>\n        ") ∧
    (∀ (st : State) (source : SourceTitle),
      (displaySourceTitle st source).sourceTitleHtml =
        "\n        <div class=\"source-label\">You selected:</div>\n        <div class=\"source-name\">" ++
        escapeHtml source.title ++
        "</div>\n        <div class=\"source-details\">\n            <span class=\"source-tag\">" ++
        source.type ++
        "</span>\n            <span class=\"source-tag\">" ++
        toString source.release_year ++
        "</span>\n            <span class=\"source-tag\">" ++
        source.rating.getD "undefined" ++
        "</span>\n            <span class=\"source-tag\">" ++
        source.duration.getD "undefined" ++
        "</span>\n        </div>\n        <div class=\"source-description\">" ++
        escapeHtml (source.description.getD "") ++
        "</div>\n    ") ∧
    (∀ (st : State) (rec : Recommendation) (index : Nat),
      (createRecommendationCard st rec index).2.innerHTML =
        "\n        <div class=\"card-header\">\n            <div class=\"card-title\">" ++
        escapeHtml rec.title ++
        "</div>\n            <div class=\"card-meta\">\n                <span class=\"meta-badge\">" ++
        rec.type ++
        "</span>\n                <span class=\"meta-badge\">" ++
        toString rec.release_year ++
        "</span>\n                <span class=\"meta-badge\">" ++
        rec.rating.getD "undefined" ++
        "</span>\n                <span class=\"meta-badge\">" ++
        rec.duration.getD "undefined" ++
        "</span>\n            </div>\n        </div>\n        <div class=\"card-body\">\n            <div class=\"card-genres\">" ++
        escapeHtml (if rec.listed_in = none ∨ rec.listed_in = some "" then "N/A"
          else rec.listed_in.getD "") ++
        "</div>\n            <div class=\"card-description\">" ++
        escapeHtml (rec.description.getD "") ++
        "</div>\n            <div class=\"card-cast\"><strong>Cast:</strong> " ++
        escapeHtml (if rec.cast = none ∨ rec.cast = some "" ∨ rec.cast = some "Unknown"
          then "Cast information not available" else rec.cast.getD "") ++
        "</div>\n            <div class=\"card-cast\"><strong>Director:</strong> " ++
        escapeHtml (if rec.director = none ∨ rec.director = some "" ∨
            rec.director = some "Unknown"
          then "Director information not available" else rec.director.getD "") ++
        "</div>\n        </div>\n        <div class=\"card-footer\">\n            <div class=\"similarity-score\">\n                <span class=\"score-label\">Match:</span>\n                <span class=\"score-value\">" ++
        toString (similarityPercent rec) ++
        "%</span>\n            </div>\n            <div class=\"score-bar\">\n                <div class=\"score-fill\" style=\"width: " ++
        toString (similarityPercent rec) ++
        "%\"></div>\n            </div>\n        </div>\n    ") := by
  refine ⟨fun s => ⟨countChar_lt_escapeHtml s, countChar_gt_escapeHtml s⟩,
    ⟨by decide, by decide, by decide⟩, escapeHtml_append, ?_, ?_, ?_, fun st => by rfl,
    fun st titles => (displaySuggestions_suggestions st titles).1, fun t => rfl, ?_, ?_⟩
  · intro t
    constructor <;>
    simp only [suggestionItem, SearchResultItem.blank, countChar_append,
      countChar_lt_escapeHtml, countChar_gt_escapeHtml]
  · intro st source
    constructor <;>
    simp only [displaySourceTitle, SourceTitle.blank, countChar_append,
      countChar_lt_escapeHtml, countChar_gt_escapeHtml, escapeHtmlValue]
  · intro st rec index
    constructor <;>
    simp only [createRecommendationCard, Recommendation.blank, countChar_append,
      countChar_lt_escapeHtml, countChar_gt_escapeHtml, escapeHtmlValue, similarityPercent]
  · intro st source
    rw [← interp_eq, ← interp_eq]
    rfl
  · intro st rec index
    rw [← knownOr_eq, ← knownOr_eq, ← jsOr_eq, ← interp_eq, ← interp_eq]
    rfl

/-- C2 (as the script behaves). From the page as loaded, after any sequence of
events in which every title handed to the page (by a search response or a
`selectTitle` call) is a non-empty string, an enabled recommend button comes with
a non-empty `selectedTitle`.  The converse is not claimed. -/
theorem recommend_enabled_selected (method count : String) (events : List Event)
    (h : ∀ e ∈ events, e.titlesNonEmpty = true)
    (henabled : (run (initialState method count) events).recommendBtnDisabled = false) :
    (run (initialState method count) events).selectedTitle ≠ "" :=
  run_selection events _ h (fun hd => by cases hd) (fun item hi => by cases hi) henabled

/-- Witness for C2: after a search whose result is clicked, the button is enabled
and the selection is non-empty. -/
theorem recommend_enabled_selected_witness :
    (∀ e ∈ exampleSelection, e.titlesNonEmpty = true) ∧
    (run (initialState "content" "10") exampleSelection).recommendBtnDisabled = false ∧
    (run (initialState "content" "10") exampleSelection).selectedTitle ≠ "" :=
  ⟨by decide, by decide,
    recommend_enabled_selected "content" "10" exampleSelection (by decide) (by decide)⟩

/-- C2 as stated fails: after "Inception" has been selected, an `input` event
whose trimmed value is shorter than two characters disables the button while
`selectedTitle` is still "Inception". -/
theorem recommend_enabled_iff_selected_fails :
    (run (initialState "content" "10") (exampleSelection ++ [.input "I"])).selectedTitle
      = "Inception" ∧
    (run (initialState "content" "10")
      (exampleSelection ++ [.input "I"])).recommendBtnDisabled = true ∧
    ¬ ((run (initialState "content" "10")
        (exampleSelection ++ [.input "I"])).recommendBtnDisabled = false ↔
      (run (initialState "content" "10")
        (exampleSelection ++ [.input "I"])).selectedTitle ≠ "") := by
  decide

/-- C3. From any reachable state, take a burst of `input` events in which less
than 300 ms pass between one event and the next (anything but input may happen in
between), followed by any events that are not input.  Then at most one search
request is issued from the first event of the burst on, and its query is the
trimmed value of the last `input` event.  Also, right after any `input` event the
pending debounce timers are: none when the trimmed value is shorter than two, and
otherwise exactly one, due in 300 ms, carrying the trimmed value of that event. -/
theorem debounce_single_request (st : State) (h : Reachable st) (first : String)
    (rest : List (List Event × String)) (tail : List Event)
    (hgap : ∀ g ∈ rest, (∀ e ∈ g.1, e.isInput = false) ∧ elapsed g.1 < 300)
    (htail : ∀ e ∈ tail, e.isInput = false) :
    ((run st (burstEvents first rest ++ tail)).searchRequests = st.searchRequests ∨
      (run st (burstEvents first rest ++ tail)).searchRequests =
        st.searchRequests ++ [jsTrim (lastValue first rest)]) ∧
    (∀ v : String, pendingSearchTimers (step st (.input v)) =
      (if jsLength (jsTrim v) < 2 then []
       else [⟨st.nextTimerId, st.now + 300, .searchTitles (jsTrim v)⟩])) := by
  have hi := h.inv
  refine ⟨?_, fun v => (step_input_spec st v hi).2.2.2⟩
  obtain ⟨a, b, c⟩ := run_burst rest st first hi hgap
  rw [run_append]
  exact run_tail (jsTrim (lastValue first rest)) st.searchRequests tail _ htail a (Or.inl ⟨b, c⟩)

/-- Witness for C3: typing "in", then "inc" 100 ms later, then waiting: the one
request issued is for "inc". -/
theorem debounce_single_request_witness :
    Reachable (initialState "content" "10") ∧
    (∀ g ∈ exampleBurstRest, (∀ e ∈ g.1, e.isInput = false) ∧ elapsed g.1 < 300) ∧
    (∀ e ∈ exampleBurstTail, e.isInput = false) ∧
    (run (initialState "content" "10")
      (burstEvents "in" exampleBurstRest ++ exampleBurstTail)).searchRequests = ["inc"] ∧
    (((run (initialState "content" "10")
        (burstEvents "in" exampleBurstRest ++ exampleBurstTail)).searchRequests =
          (initialState "content" "10").searchRequests ∨
      (run (initialState "content" "10")
        (burstEvents "in" exampleBurstRest ++ exampleBurstTail)).searchRequests =
          (initialState "content" "10").searchRequests ++
            [jsTrim (lastValue "in" exampleBurstRest)]) ∧
    (∀ v : String, pendingSearchTimers (step (initialState "content" "10") (.input v)) =
      (if jsLength (jsTrim v) < 2 then []
       else [⟨(initialState "content" "10").nextTimerId,
              (initialState "content" "10").now + 300, .searchTitles (jsTrim v)⟩]))) :=
  ⟨⟨"content", "10", [], rfl⟩, by decide, by decide, by decide,
    debounce_single_request (initialState "content" "10") ⟨"content", "10", [], rfl⟩ "in"
      exampleBurstRest exampleBurstTail (by decide) (by decide)⟩

/-- C4. In any reachable state, an `input` event whose trimmed value has length
below two issues no search request, leaves no debounce timer pending and sets
none, empties the suggestion list, closes the dropdown and leaves the recommend
button disabled. -/
theorem short_query_clears (st : State) (h : Reachable st) (v : String)
    (hv : jsLength (jsTrim v) < 2) :
    (step st (.input v)).searchRequests = st.searchRequests ∧
    pendingSearchTimers (step st (.input v)) = [] ∧
    (step st (.input v)).nextTimerId = st.nextTimerId ∧
    (step st (.input v)).suggestions = [] ∧
    (step st (.input v)).suggestionsActive = false ∧
    (step st (.input v)).recommendBtnDisabled = true := by
  have hi : Inv { st with searchInputValue := v } := h.inv
  obtain ⟨a, _, _, hshort, _⟩ := handleSearch_spec { st with searchInputValue := v } hi
  obtain ⟨b, c, _, d, e, f⟩ := hshort hv
  exact ⟨a, b, c, d, e, f⟩

/-- Witness for C4: with a debounce timer pending for "in", the input " a " (one
character once trimmed) cancels it. -/
theorem short_query_clears_witness :
    Reachable (run (initialState "content" "10") [.input "in"]) ∧
    jsLength (jsTrim " a ") < 2 ∧
    pendingSearchTimers (run (initialState "content" "10") [.input "in"]) ≠ [] ∧
    pendingSearchTimers
      (step (run (initialState "content" "10") [.input "in"]) (.input " a ")) = [] ∧
    (step (run (initialState "content" "10") [.input "in"]) (.input " a ")).recommendBtnDisabled
      = true :=
  ⟨⟨"content", "10", [.input "in"], rfl⟩, by decide, by decide,
    (short_query_clears _ ⟨"content", "10", [.input "in"], rfl⟩ " a " (by decide)).2.1,
    (short_query_clears _ ⟨"content", "10", [.input "in"], rfl⟩ " a " (by decide)).2.2.2.2.2⟩

/-- C5. When `getRecommendations` runs with a non-empty `selectedTitle`, the
loading indicator is shown while the request is pending and is not active once
the function completes, however the request settles; the same holds at the
completion of the function whatever happened to the page while the request was
pending. -/
theorem loading_hidden_on_completion (st : State) (outcome : RecommendOutcome)
    (hsel : st.selectedTitle ≠ "") :
    (getRecommendationsBegin st).loadingActive = true ∧
    (getRecommendations st outcome).loadingActive = false ∧
    (∀ pending : State, (getRecommendationsSettled pending outcome).loadingActive = false) := by
  refine ⟨rfl, ?_, fun _ => rfl⟩
  unfold getRecommendations
  rw [if_neg hsel]
  rfl

/-- Witness for C5: a 2xx response whose body lacks `recommendations`, so that
rendering throws. -/
theorem loading_hidden_on_completion_witness :
    (selectTitle (initialState "content" "10") "Inception").selectedTitle ≠ "" ∧
    (getRecommendations (selectTitle (initialState "content" "10") "Inception")
      (.ok (.object ⟨some exampleSource, none⟩))).loadingActive = false :=
  ⟨by decide,
    (loading_hidden_on_completion (selectTitle (initialState "content" "10") "Inception")
      (.ok (.object ⟨some exampleSource, none⟩)) (by decide)).2.1⟩

/-- C6 (as the script behaves). When a recommend request settles with a non-2xx
response whose JSON body has an `error` property equal to a non-empty string `m`,
the error banner is shown with text exactly `m`; if the body has no `error`
property the text is "Failed to get recommendations"; handling the response
writes neither the results section, the source panel, the grid nor the count
label (last part, for every state the response may find).  If the request was
started by `getRecommendations` with a non-empty `selectedTitle` and anything
happened while it was pending except a 2xx recommend response settling, the
results section is hidden and the source panel, the grid and the count label are
as they were when the request started (middle parts).  The first twelve parts are
the case in which nothing happens while the request is pending. -/
theorem error_banner_text (st : State) (m : String) (mid : List Event)
    (hsel : st.selectedTitle ≠ "") (hm : m ≠ "")
    (hmid : ∀ e ∈ mid, e.isOkSettled = false) :
    (getRecommendations st (.notOk (.object (some m)))).errorActive = true ∧
    (getRecommendations st (.notOk (.object (some m)))).errorText = m ∧
    (getRecommendations st (.notOk (.object (some m)))).resultsActive = false ∧
    (getRecommendations st (.notOk (.object (some m)))).grid = st.grid ∧
    (getRecommendations st (.notOk (.object (some m)))).sourceTitleHtml = st.sourceTitleHtml ∧
    (getRecommendations st (.notOk (.object (some m)))).recCountText = st.recCountText ∧
    (getRecommendations st (.notOk (.object none))).errorActive = true ∧
    (getRecommendations st (.notOk (.object none))).errorText =
      "Failed to get recommendations" ∧
    (getRecommendations st (.notOk (.object none))).resultsActive = false ∧
    (getRecommendations st (.notOk (.object none))).grid = st.grid ∧
    (getRecommendations st (.notOk (.object none))).sourceTitleHtml = st.sourceTitleHtml ∧
    (getRecommendations st (.notOk (.object none))).recCountText = st.recCountText ∧
    ((getRecommendationsSettled (run (getRecommendationsBegin st) mid)
        (.notOk (.object (some m)))).errorActive = true ∧
      (getRecommendationsSettled (run (getRecommendationsBegin st) mid)
        (.notOk (.object (some m)))).errorText = m ∧
      (getRecommendationsSettled (run (getRecommendationsBegin st) mid)
        (.notOk (.object (some m)))).resultsActive = false ∧
      (getRecommendationsSettled (run (getRecommendationsBegin st) mid)
        (.notOk (.object (some m)))).grid = st.grid ∧
      (getRecommendationsSettled (run (getRecommendationsBegin st) mid)
        (.notOk (.object (some m)))).sourceTitleHtml = st.sourceTitleHtml ∧
      (getRecommendationsSettled (run (getRecommendationsBegin st) mid)
        (.notOk (.object (some m)))).recCountText = st.recCountText) ∧
    ((getRecommendationsSettled (run (getRecommendationsBegin st) mid)
        (.notOk (.object none))).errorActive = true ∧
      (getRecommendationsSettled (run (getRecommendationsBegin st) mid)
        (.notOk (.object none))).errorText = "Failed to get recommendations" ∧
      (getRecommendationsSettled (run (getRecommendationsBegin st) mid)
        (.notOk (.object none))).resultsActive = false ∧
      (getRecommendationsSettled (run (getRecommendationsBegin st) mid)
        (.notOk (.object none))).grid = st.grid ∧
      (getRecommendationsSettled (run (getRecommendationsBegin st) mid)
        (.notOk (.object none))).sourceTitleHtml = st.sourceTitleHtml ∧
      (getRecommendationsSettled (run (getRecommendationsBegin st) mid)
        (.notOk (.object none))).recCountText = st.recCountText) ∧
    (∀ pending : State,
      (getRecommendationsSettled pending (.notOk (.object (some m)))).errorActive = true ∧
      (getRecommendationsSettled pending (.notOk (.object (some m)))).errorText = m ∧
      (getRecommendationsSettled pending (.notOk (.object none))).errorActive = true ∧
      (getRecommendationsSettled pending (.notOk (.object none))).errorText =
        "Failed to get recommendations" ∧
      (getRecommendationsSettled pending (.notOk (.object (some m)))).resultsActive =
        pending.resultsActive ∧
      (getRecommendationsSettled pending (.notOk (.object (some m)))).grid = pending.grid ∧
      (getRecommendationsSettled pending (.notOk (.object (some m)))).sourceTitleHtml =
        pending.sourceTitleHtml ∧
      (getRecommendationsSettled pending (.notOk (.object (some m)))).recCountText =
        pending.recCountText ∧
      (getRecommendationsSettled pending (.notOk (.object none))).resultsActive =
        pending.resultsActive ∧
      (getRecommendationsSettled pending (.notOk (.object none))).grid = pending.grid ∧
      (getRecommendationsSettled pending (.notOk (.object none))).sourceTitleHtml =
        pending.sourceTitleHtml ∧
      (getRecommendationsSettled pending (.notOk (.object none))).recCountText =
        pending.recCountText) := by
  obtain ⟨a, b, c, d⟩ := run_results mid (getRecommendationsBegin st) hmid rfl
  have hb : (getRecommendationsBegin st).grid = st.grid ∧
      (getRecommendationsBegin st).sourceTitleHtml = st.sourceTitleHtml ∧
      (getRecommendationsBegin st).recCountText = st.recCountText := ⟨rfl, rfl, rfl⟩
  have hold : (getRecommendations st (.notOk (.object (some m)))).errorActive = true ∧
      (getRecommendations st (.notOk (.object (some m)))).errorText = m ∧
      (getRecommendations st (.notOk (.object (some m)))).resultsActive = false ∧
      (getRecommendations st (.notOk (.object (some m)))).grid = st.grid ∧
      (getRecommendations st (.notOk (.object (some m)))).sourceTitleHtml = st.sourceTitleHtml ∧
      (getRecommendations st (.notOk (.object (some m)))).recCountText = st.recCountText ∧
      (getRecommendations st (.notOk (.object none))).errorActive = true ∧
      (getRecommendations st (.notOk (.object none))).errorText =
        "Failed to get recommendations" ∧
      (getRecommendations st (.notOk (.object none))).resultsActive = false ∧
      (getRecommendations st (.notOk (.object none))).grid = st.grid ∧
      (getRecommendations st (.notOk (.object none))).sourceTitleHtml = st.sourceTitleHtml ∧
      (getRecommendations st (.notOk (.object none))).recCountText = st.recCountText := by
    simp [getRecommendations, hsel, getRecommendationsSettled, getRecommendationsTry, jsOr, hm,
      showError, setTimeout, getRecommendationsBegin]
  obtain ⟨o1, o2, o3, o4, o5, o6, o7, o8, o9, o10, o11, o12⟩ := hold
  refine ⟨o1, o2, o3, o4, o5, o6, o7, o8, o9, o10, o11, o12,
    ⟨rfl, ?_, a, b.trans hb.1, c.trans hb.2.1, d.trans hb.2.2⟩,
    ⟨rfl, rfl, a, b.trans hb.1, c.trans hb.2.1, d.trans hb.2.2⟩,
    fun pending => ⟨rfl, ?_, rfl, rfl, rfl, rfl, rfl, rfl, rfl, rfl, rfl, rfl⟩⟩
  · simp [getRecommendationsSettled, getRecommendationsTry, jsOr, hm, showError, setTimeout]
  · simp [getRecommendationsSettled, getRecommendationsTry, jsOr, hm, showError, setTimeout]

/-- Witness for C6: the body `{"error": "Title not found"}`, while a second
recommend request is started and fails on the network. -/
theorem error_banner_text_witness :
    (selectTitle (initialState "content" "10") "Inception").selectedTitle ≠ "" ∧
    "Title not found" ≠ "" ∧
    (∀ e ∈ exampleOverlap, e.isOkSettled = false) ∧
    (getRecommendations (selectTitle (initialState "content" "10") "Inception")
      (.notOk (.object (some "Title not found")))).errorText = "Title not found" ∧
    (getRecommendationsSettled
      (run (getRecommendationsBegin (selectTitle (initialState "content" "10") "Inception"))
        exampleOverlap)
      (.notOk (.object (some "Title not found")))).errorText = "Title not found" :=
  ⟨by decide, by decide, by decide,
    (error_banner_text (selectTitle (initialState "content" "10") "Inception")
      "Title not found" exampleOverlap (by decide) (by decide) (by decide)).2.1,
    (error_banner_text (selectTitle (initialState "content" "10") "Inception")
      "Title not found" exampleOverlap (by decide) (by decide)
      (by decide)).2.2.2.2.2.2.2.2.2.2.2.2.1.2.1⟩

set_option maxRecDepth 100000 in
/-- C6 as stated fails in two ways.  With the body `{"error": ""}` the banner
text is the fallback, not the `error` property.  And when two recommend requests
are pending and the other one settles with a 2xx response first, the non-2xx
response finds the results section shown with a card in the grid. -/
theorem error_banner_empty_error_property :
    (getRecommendations (selectTitle (initialState "content" "10") "Inception")
      (.notOk (.object (some "")))).errorText = "Failed to get recommendations" ∧
    (getRecommendations (selectTitle (initialState "content" "10") "Inception")
      (.notOk (.object (some "")))).errorText ≠ "" ∧
    (run (initialState "content" "10")
      [.selectTitle "Inception", .clickRecommend, .clickRecommend,
       .recommendSettled (.ok (.object ⟨some exampleSource, some [exampleRecommendation]⟩)),
       .recommendSettled (.notOk (.object (some "Title not found")))]).errorText
      = "Title not found" ∧
    (run (initialState "content" "10")
      [.selectTitle "Inception", .clickRecommend, .clickRecommend,
       .recommendSettled (.ok (.object ⟨some exampleSource, some [exampleRecommendation]⟩)),
       .recommendSettled (.notOk (.object (some "Title not found")))]).resultsActive = true ∧
    (run (initialState "content" "10")
      [.selectTitle "Inception", .clickRecommend, .clickRecommend,
       .recommendSettled (.ok (.object ⟨some exampleSource, some [exampleRecommendation]⟩)),
       .recommendSettled (.notOk (.object (some "Title not found")))]).grid.length = 1 := by
  decide

/-- C7, the script at the failing input: a first banner is shown at time 0, a new
recommend action at 3000 ms clears it, the second banner is shown at 3100 ms, and
at 5000 ms the timer of the first banner fires and hides the second one, 1900 ms
after it was shown and while its own timer (due at 8100 ms) is still pending. -/
theorem error_banner_hidden_early :
    (run (initialState "content" "10") exampleTwoErrors).errorActive = true ∧
    (run (initialState "content" "10") exampleTwoErrors).now = 3100 ∧
    (run (initialState "content" "10") exampleTwoErrors).timers =
      [⟨1, 5000, .hideError⟩, ⟨2, 8100, .hideError⟩] ∧
    (run (initialState "content" "10")
      (exampleTwoErrors ++ [.advance 1900, .fire 1])).now = 5000 ∧
    (run (initialState "content" "10")
      (exampleTwoErrors ++ [.advance 1900, .fire 1])).errorActive = false ∧
    (run (initialState "content" "10")
      (exampleTwoErrors ++ [.advance 1900, .fire 1])).timers = [⟨2, 8100, .hideError⟩] := by
  decide

/-- C8. For a `recommendations` list of length `k`, after `displayRecommendations`
the grid holds exactly `k` cards, the `i`-th being the card
`createRecommendationCard` builds for the `i`-th element, whatever the grid held
before, and the count label reads "`k` recommendations found". -/
theorem displayRecommendations_cards (st : State) (recommendations : List Recommendation) :
    (displayRecommendations st recommendations).grid =
      recommendations.enum.map (fun p => (createRecommendationCard st p.2 p.1).2) ∧
    (displayRecommendations st recommendations).grid.length = recommendations.length ∧
    (displayRecommendations st recommendations).recCountText =
      toString recommendations.length ++ " recommendations found" ∧
    (displayRecommendations st []).recCountText = "0 recommendations found" ∧
    (displayRecommendations st [exampleRecommendation]).recCountText =
      "1 recommendations found" := by
  have h := appendCards_grid st recommendations
    { st with recCountText := toString recommendations.length ++ " recommendations found",
              grid := [] } 0
  simp only [displayRecommendations]
  refine ⟨?_, ?_, ?_, by rfl, by rfl⟩
  · rw [h.1]; simp [List.enum]
  · rw [h.1]; simp
  · rw [h.2]

/-- C9 (as the script behaves). For a recommendation whose similarity `s` is a
double in `[0, 1]`, the card ends with the match label `p%` and the bar width
`width: p%` for the same integer `p = Math.round(s * 100)`, where the product is
the double product: the exact product when it has at most 53 significant bits,
and otherwise a multiple of the unit in the last place of a 53-bit significand at
most half a unit away from it.  Writing `e` for the exact product `100 * s`
rounded to the nearest whole number (ties up), `p` is `e + 1` when the double
product is exactly `e + 1/2` and `e` otherwise, so `e ≤ p ≤ e + 1` and
`p ≤ 100`.  For the doubles nearest to 0.873 and to 0.8745, `p` is 87. -/
theorem similarityPercent_rendered (st : State) (rec : Recommendation) (index : Nat)
    (_hd : rec.similarity.IsDouble) (h1 : rec.similarity.LeOne) :
    (∃ head : String, (createRecommendationCard st rec index).2.innerHTML =
      head ++
      "</div>\n        </div>\n        <div class=\"card-footer\">\n            <div class=\"similarity-score\">\n                <span class=\"score-label\">Match:</span>\n                <span class=\"score-value\">" ++
      toString (mathRound rec.similarity.mul100) ++
      "%</span>\n            </div>\n            <div class=\"score-bar\">\n                <div class=\"score-fill\" style=\"width: " ++
      toString (mathRound rec.similarity.mul100) ++
      "%\"></div>\n            </div>\n        </div>\n    ") ∧
    mathRound rec.similarity.mul100 ≤ 100 ∧
    nearestPercentExact rec.similarity ≤ mathRound rec.similarity.mul100 ∧
    mathRound rec.similarity.mul100 ≤ nearestPercentExact rec.similarity + 1 ∧
    mathRound (Double.mul100 ⟨3931642474694443, 52⟩) = 87 ∧
    toString (mathRound (Double.mul100 ⟨3931642474694443, 52⟩)) ++ "%" = "87%" ∧
    mathRound rec.similarity.mul100 =
      (if 2 * rec.similarity.mul100.num =
          (2 * nearestPercentExact rec.similarity + 1) * 2 ^ rec.similarity.exp
       then nearestPercentExact rec.similarity + 1 else nearestPercentExact rec.similarity) ∧
    rec.similarity.mul100.exp = rec.similarity.exp ∧
    (rec.similarity.num * 100 < 2 ^ 53 →
      rec.similarity.mul100.num = rec.similarity.num * 100) ∧
    (2 ^ 53 ≤ rec.similarity.num * 100 →
      2 ^ (bitLength (rec.similarity.num * 100) - 1) ≤ rec.similarity.num * 100 ∧
      rec.similarity.num * 100 < 2 ^ bitLength (rec.similarity.num * 100) ∧
      2 ^ (bitLength (rec.similarity.num * 100) - 53) ∣ rec.similarity.mul100.num ∧
      2 * (rec.similarity.mul100.num - rec.similarity.num * 100) ≤
        2 ^ (bitLength (rec.similarity.num * 100) - 53) ∧
      2 * (rec.similarity.num * 100 - rec.similarity.mul100.num) ≤
        2 ^ (bitLength (rec.similarity.num * 100) - 53)) ∧
    mathRound (Double.mul100 ⟨3938397874135499, 52⟩) = 87 := by
  obtain ⟨a, b, c⟩ := similarityPercent_bounds rec.similarity h1
  have hex := mathRound_roundToDouble_exact (rec.similarity.num * 100) rec.similarity.exp
    (by unfold Double.LeOne at h1; omega)
  have e : 2 * (rec.similarity.num * 100) = 200 * rec.similarity.num := by ring
  simp only [e] at hex
  obtain ⟨n1, n2, n3⟩ := roundToDouble_near (rec.similarity.num * 100) rec.similarity.exp
  exact ⟨⟨_, rfl⟩, a, b, c, by decide, by decide, hex, n1, n2, n3, by decide⟩

/-- Witness for C9: the recommendation with similarity 0.873, whose exact product
has more than 53 bits. -/
theorem similarityPercent_rendered_witness :
    exampleRecommendation.similarity.IsDouble ∧ exampleRecommendation.similarity.LeOne ∧
    2 ^ 53 ≤ exampleRecommendation.similarity.num * 100 ∧
    mathRound exampleRecommendation.similarity.mul100 = 87 ∧
    nearestPercentExact exampleRecommendation.similarity = 87 ∧
    mathRound exampleRecommendation.similarity.mul100 ≤ 100 ∧
    2 ^ (bitLength (exampleRecommendation.similarity.num * 100) - 53) ∣
      exampleRecommendation.similarity.mul100.num :=
  ⟨by decide, by decide, by decide, by decide, by decide,
    (similarityPercent_rendered (initialState "content" "10") exampleRecommendation 0
      (by decide) (by decide)).2.1,
    ((similarityPercent_rendered (initialState "content" "10") exampleRecommendation 0
      (by decide) (by decide)).2.2.2.2.2.2.2.2.2.1 (by decide)).2.2.1⟩

/-- C9 as stated fails: for the double 5584463537939415 / 2 ^ 55
(0.15499999999999999889..., the value the JSON number 0.155 parses to), the exact
product is below 15.5 and rounds to 15, but the double product is 15.5 and the
card shows 16. -/
theorem similarityPercent_not_exact_rounding :
    Double.IsDouble ⟨5584463537939415, 55⟩ ∧ Double.LeOne ⟨5584463537939415, 55⟩ ∧
    Double.mul100 ⟨5584463537939415, 55⟩ = ⟨558446353793941504, 55⟩ ∧
    2 * 558446353793941504 = 31 * 2 ^ 55 ∧
    similarityPercent { exampleRecommendation with similarity := ⟨5584463537939415, 55⟩ } = 16 ∧
    nearestPercentExact ⟨5584463537939415, 55⟩ = 15 := by
  decide

/-- C10 (as the script behaves). In every state and for every title `t` without
line feed or carriage return, `selectTitle t` sets `selectedTitle` and the value
of the search box to exactly `t`, closes the dropdown and enables the recommend
button.  For every title `t` whatsoever, `selectedTitle` becomes `t`, the value of
the search box becomes `t` with its line feeds and carriage returns removed, and
doing it twice gives the same state as doing it once.  A click on a suggestion
calls `selectTitle` with the title of the search result the suggestion was built
from. -/
theorem selectTitle_idempotent (st : State) (t : String)
    (ht : ∀ c ∈ t.data, c ≠ Char.ofNat 10 ∧ c ≠ Char.ofNat 13) :
    (selectTitle st t).selectedTitle = t ∧
    (selectTitle st t).searchInputValue = t ∧
    (selectTitle st t).suggestionsActive = false ∧
    (selectTitle st t).recommendBtnDisabled = false ∧
    selectTitle (selectTitle st t) t = selectTitle st t ∧
    (∀ u : String,
      (selectTitle st u).selectedTitle = u ∧
      (selectTitle st u).searchInputValue =
        ⟨u.data.filter (fun c => c != Char.ofNat 10 && c != Char.ofNat 13)⟩ ∧
      (selectTitle st u).suggestionsActive = false ∧
      (selectTitle st u).recommendBtnDisabled = false ∧
      selectTitle (selectTitle st u) u = selectTitle st u) ∧
    (∀ (before after : List SearchResultItem) (item : SearchResultItem),
      step (displaySuggestions st (before ++ item :: after)) (.clickSuggestion before.length) =
        selectTitle (displaySuggestions st (before ++ item :: after)) item.title) := by
  refine ⟨rfl, ?_, rfl, rfl, rfl, fun u => ⟨rfl, rfl, rfl, rfl, rfl⟩, ?_⟩
  · show sanitizeValue t = t
    unfold sanitizeValue
    have hf : t.data.filter (fun c => c != Char.ofNat 10 && c != Char.ofNat 13) = t.data := by
      rw [List.filter_eq_self]
      intro c hc
      obtain ⟨h1, h2⟩ := ht c hc
      simp [h1, h2]
    rw [hf]
  · intro before after item
    have hs : (displaySuggestions st (before ++ item :: after)).suggestions =
        before.map suggestionItem ++ suggestionItem item :: after.map suggestionItem := by
      simp [displaySuggestions]
    have hg : (displaySuggestions st (before ++ item :: after)).suggestions.get? before.length =
        some (suggestionItem item) := by
      rw [hs, List.get?_eq_getElem?, List.getElem?_append_right (by simp)]
      simp
    simp only [step, hg]
    rfl

/-- Witness for C10: the title "Inception". -/
theorem selectTitle_idempotent_witness :
    (∀ c ∈ "Inception".data, c ≠ Char.ofNat 10 ∧ c ≠ Char.ofNat 13) ∧
    (selectTitle (initialState "content" "10") "Inception").searchInputValue = "Inception" :=
  ⟨by decide,
    (selectTitle_idempotent (initialState "content" "10") "Inception" (by decide)).2.1⟩

/-- C10 as stated fails for a title with a line break: the search box drops the
line feed, so its value is not the title. -/
theorem selectTitle_value_not_exact :
    (selectTitle (initialState "content" "10") "Line one\nLine two").selectedTitle =
      "Line one\nLine two" ∧
    (selectTitle (initialState "content" "10") "Line one\nLine two").searchInputValue =
      "Line oneLine two" ∧
    (selectTitle (initialState "content" "10") "Line one\nLine two").searchInputValue ≠
      "Line one\nLine two" := by
  decide

end Recommender
